import Mathlib

/-!
Shallow embedding of the GLSL constant-evaluation / constant-propagation
core (`src/core/natives/src/renderer/emulator/glsl/const_eval.rs`) of the
Blaze4D renderer emulator.

Modelling conventions:
* `i32` is modelled as `Int`; where the source wraps (release-mode
  semantics of the shipped code) we wrap explicitly modulo `2 ^ 32`.
  `u32` is modelled as `Nat`, again with explicit reductions.
* `f32` / `f64` payloads are modelled as rationals.  IEEE-754 rounding and
  the precision difference between the two float widths are abstracted
  away; no verified claim depends on float arithmetic, only on how float
  values are carried, converted between base-type families, and rebuilt
  into AST nodes.
* Rust panics (explicit `panic!`, `todo!`, integer division by zero) are
  modelled as distinguished outcomes: fallible scalar operations return
  `Option` (`none` = panic), evaluator results use `PRes` and the
  propagator returns `PROut`, each with a dedicated panic constructor.
-/

namespace ConstEval

/-- Model of Rust `i32` values (arithmetic wraps explicitly). -/
abbrev Int32 := Int

/-- Model of Rust `u32` values (arithmetic wraps explicitly). -/
abbrev UInt32 := Nat

/-- Model of `f32` payloads (IEEE arithmetic abstracted to rationals). -/
abbrev F32 := Rat

/-- Model of `f64` payloads (IEEE arithmetic abstracted to rationals). -/
abbrev F64 := Rat

/-- Reduce an unbounded integer into the `i32` value range. -/
def wrap32 (x : Int) : Int := (x + 2 ^ 31) % 2 ^ 32 - 2 ^ 31

/-- Reduce an unbounded natural into the `u32` value range. -/
def uwrap32 (x : Nat) : Nat := x % 2 ^ 32

def i32_add (a b : Int32) : Int32 := wrap32 (a + b)

def i32_sub (a b : Int32) : Int32 := wrap32 (a - b)

def i32_mul (a b : Int32) : Int32 := wrap32 (a * b)

/-- Rust `i32::wrapping_neg`. -/
def i32_wrapping_neg (a : Int32) : Int32 := wrap32 (-a)

/-- Rust `!x` (bitwise complement) on `i32`. -/
def i32_not (a : Int32) : Int32 := -a - 1

/-- Rust `a / b` on `i32`: truncating division, panics (`none`) on a zero
divisor or on the single overflowing case `i32::MIN / -1`. -/
def i32_div (a b : Int32) : Option Int32 :=
  if b = 0 ∨ (a = -(2 ^ 31) ∧ b = -1) then none else some (Int.tdiv a b)

/-- Rust `a % b` on `i32`: truncating remainder, panics (`none`) on a zero
divisor or on `i32::MIN % -1`. -/
def i32_mod (a b : Int32) : Option Int32 :=
  if b = 0 ∨ (a = -(2 ^ 31) ∧ b = -1) then none else some (Int.tmod a b)

/-- Shift amount taken from an `i32` right operand: release-mode Rust masks
the amount to the low five bits of the two's-complement pattern. -/
def i32_shift_amount (b : Int32) : Nat := (Int.emod b 32).toNat

def i32_shl (a : Int32) (s : Nat) : Int32 := wrap32 (a * 2 ^ (s % 32))

/-- Arithmetic right shift on `i32` (floor division by a power of two). -/
def i32_shr (a : Int32) (s : Nat) : Int32 := Int.fdiv a (2 ^ (s % 32))

def u32_add (a b : UInt32) : UInt32 := uwrap32 (a + b)

def u32_sub (a b : UInt32) : UInt32 := uwrap32 (a + 2 ^ 32 - uwrap32 b)

def u32_mul (a b : UInt32) : UInt32 := uwrap32 (a * b)

/-- Rust `u32::wrapping_neg`. -/
def u32_wrapping_neg (a : UInt32) : UInt32 := uwrap32 (2 ^ 32 - uwrap32 a)

/-- Rust `!x` (bitwise complement) on `u32`. -/
def u32_not (a : UInt32) : UInt32 := 2 ^ 32 - 1 - uwrap32 a

/-- Rust `a / b` on `u32`: panics (`none`) on a zero divisor. -/
def u32_div (a b : UInt32) : Option UInt32 :=
  if b = 0 then none else some (a / b)

/-- Rust `a % b` on `u32`: panics (`none`) on a zero divisor. -/
def u32_mod (a b : UInt32) : Option UInt32 :=
  if b = 0 then none else some (a % b)

def u32_shl (a : UInt32) (s : Nat) : UInt32 := uwrap32 (a * 2 ^ (s % 32))

def u32_shr (a : UInt32) (s : Nat) : UInt32 := a / 2 ^ (s % 32)

/-- Truncation of a rational toward zero (C-style float-to-int step). -/
def ratTrunc (q : Rat) : Int := Int.tdiv q.num q.den

/-- Rust `as`-cast from a float to `i32` (saturating truncation). -/
def i32_of_f (q : Rat) : Int32 := max (-(2 ^ 31)) (min (2 ^ 31 - 1) (ratTrunc q))

/-- Rust `as`-cast from a float to `u32` (saturating truncation). -/
def u32_of_f (q : Rat) : UInt32 := (max 0 (min (2 ^ 32 - 1) (ratTrunc q))).toNat

/-- Rust `as`-cast from `i32` to `u32` (two's-complement reinterpretation). -/
def u32_of_i32 (a : Int32) : UInt32 := (Int.emod a (2 ^ 32)).toNat

/-- Rust `as`-cast from `u32` to `i32` (two's-complement reinterpretation). -/
def i32_of_u32 (a : UInt32) : Int32 := wrap32 (a : Int)

def i32_of_bool (b : Bool) : Int32 := if b then 1 else 0

def u32_of_bool (b : Bool) : UInt32 := if b then 1 else 0

def f_of_bool (b : Bool) : Rat := if b then 1 else 0

def bool_of_i32 (a : Int32) : Bool := a ≠ 0

def bool_of_u32 (a : UInt32) : Bool := a ≠ 0

def bool_of_f (q : Rat) : Bool := q ≠ 0

/-- Bundle of the five `ScalarConstructFrom` conversions into one target
scalar type, mirroring the trait-bound set used by the constructor code. -/
structure ScalarFroms (T : Type) where
  fromBool : Bool → T
  fromI32 : Int32 → T
  fromU32 : UInt32 → T
  fromF32 : F32 → T
  fromF64 : F64 → T

def fromsBool : ScalarFroms Bool := ⟨id, bool_of_i32, bool_of_u32, bool_of_f, bool_of_f⟩

def fromsI32 : ScalarFroms Int32 := ⟨i32_of_bool, id, i32_of_u32, i32_of_f, i32_of_f⟩

def fromsU32 : ScalarFroms UInt32 := ⟨u32_of_bool, u32_of_i32, id, u32_of_f, u32_of_f⟩

/-- Conversions into `f32`; the `f64 → f32` narrowing is modelled as the
identity on the rational payload (rounding abstracted). -/
def fromsF32 : ScalarFroms F32 := ⟨f_of_bool, fun a => (a : Rat), fun a => (a : Rat), id, id⟩

def fromsF64 : ScalarFroms F64 := ⟨f_of_bool, fun a => (a : Rat), fun a => (a : Rat), id, id⟩

/-- Outcome of one overload-instance evaluation: `panicked` models a Rust
panic, `absent` models `None` ("keep searching"), `present` models
`Some`. -/
inductive PRes (α : Type) where
  | panicked
  | absent
  | present (a : α)
deriving DecidableEq

def PRes.map {α β : Type} (f : α → β) : PRes α → PRes β
  | .panicked => .panicked
  | .absent => .absent
  | .present a => .present (f a)

def PRes.toOption {α : Type} : PRes α → Option α
  | .present a => some a
  | _ => none

def PRes.ofOption {α : Type} : Option α → PRes α
  | some a => .present a
  | none => .absent

/-- Lift a value that is always returned by the Rust closure (outer `Some`)
but whose computation may panic (inner `none`). -/
def PRes.ofPanic {α : Type} : Option α → PRes α
  | some a => .present a
  | none => .panicked

/-- The 13 concrete value shapes (`BaseTypeShape` in the source). -/
inductive BaseTypeShape where
  | Scalar | Vec2 | Vec3 | Vec4
  | Mat2 | Mat23 | Mat24 | Mat32 | Mat3 | Mat34 | Mat42 | Mat43 | Mat4
deriving DecidableEq, Fintype

def BaseTypeShape.is_scalar : BaseTypeShape → Bool
  | .Scalar => true
  | _ => false

def BaseTypeShape.is_vector : BaseTypeShape → Bool
  | .Vec2 | .Vec3 | .Vec4 => true
  | _ => false

def BaseTypeShape.is_matrix : BaseTypeShape → Bool
  | .Mat2 | .Mat23 | .Mat24 | .Mat32 | .Mat3 | .Mat34 | .Mat42 | .Mat43 | .Mat4 => true
  | _ => false

/-- A 2-component vector (`nalgebra::Vector2`). -/
structure V2 (T : Type) where
  x : T
  y : T
deriving DecidableEq

/-- A 3-component vector (`nalgebra::Vector3`). -/
structure V3 (T : Type) where
  x : T
  y : T
  z : T
deriving DecidableEq

/-- A 4-component vector (`nalgebra::Vector4`). -/
structure V4 (T : Type) where
  x : T
  y : T
  z : T
  w : T
deriving DecidableEq

def V2.toList {T : Type} (v : V2 T) : List T := [v.x, v.y]

def V3.toList {T : Type} (v : V3 T) : List T := [v.x, v.y, v.z]

def V4.toList {T : Type} (v : V4 T) : List T := [v.x, v.y, v.z, v.w]

def V2.map {T R : Type} (f : T → R) (v : V2 T) : V2 R := ⟨f v.x, f v.y⟩

def V3.map {T R : Type} (f : T → R) (v : V3 T) : V3 R := ⟨f v.x, f v.y, f v.z⟩

def V4.map {T R : Type} (f : T → R) (v : V4 T) : V4 R := ⟨f v.x, f v.y, f v.z, f v.w⟩

def V2.mapP {T R : Type} (f : T → Option R) (v : V2 T) : Option (V2 R) := do
  pure ⟨← f v.x, ← f v.y⟩

def V3.mapP {T R : Type} (f : T → Option R) (v : V3 T) : Option (V3 R) := do
  pure ⟨← f v.x, ← f v.y, ← f v.z⟩

def V4.mapP {T R : Type} (f : T → Option R) (v : V4 T) : Option (V4 R) := do
  pure ⟨← f v.x, ← f v.y, ← f v.z, ← f v.w⟩

def V2.zip {T1 T2 R : Type} (f : T1 → T2 → R) (a : V2 T1) (b : V2 T2) : V2 R :=
  ⟨f a.x b.x, f a.y b.y⟩

def V3.zip {T1 T2 R : Type} (f : T1 → T2 → R) (a : V3 T1) (b : V3 T2) : V3 R :=
  ⟨f a.x b.x, f a.y b.y, f a.z b.z⟩

def V4.zip {T1 T2 R : Type} (f : T1 → T2 → R) (a : V4 T1) (b : V4 T2) : V4 R :=
  ⟨f a.x b.x, f a.y b.y, f a.z b.z, f a.w b.w⟩

def V2.zipP {T1 T2 R : Type} (f : T1 → T2 → Option R) (a : V2 T1) (b : V2 T2) :
    Option (V2 R) := do
  pure ⟨← f a.x b.x, ← f a.y b.y⟩

def V3.zipP {T1 T2 R : Type} (f : T1 → T2 → Option R) (a : V3 T1) (b : V3 T2) :
    Option (V3 R) := do
  pure ⟨← f a.x b.x, ← f a.y b.y, ← f a.z b.z⟩

def V4.zipP {T1 T2 R : Type} (f : T1 → T2 → Option R) (a : V4 T1) (b : V4 T2) :
    Option (V4 R) := do
  pure ⟨← f a.x b.x, ← f a.y b.y, ← f a.z b.z, ← f a.w b.w⟩

/-- A dense column-major matrix with `R` rows and `C` columns is stored as
`C` columns of `R`-vectors, matching `nalgebra`'s column-major storage.
`M23` is `Matrix2x3` (2 rows, 3 columns), and so on. -/
structure M2 (T : Type) where
  c0 : V2 T
  c1 : V2 T
deriving DecidableEq

structure M23 (T : Type) where
  c0 : V2 T
  c1 : V2 T
  c2 : V2 T
deriving DecidableEq

structure M24 (T : Type) where
  c0 : V2 T
  c1 : V2 T
  c2 : V2 T
  c3 : V2 T
deriving DecidableEq

structure M32 (T : Type) where
  c0 : V3 T
  c1 : V3 T
deriving DecidableEq

structure M3 (T : Type) where
  c0 : V3 T
  c1 : V3 T
  c2 : V3 T
deriving DecidableEq

structure M34 (T : Type) where
  c0 : V3 T
  c1 : V3 T
  c2 : V3 T
  c3 : V3 T
deriving DecidableEq

structure M42 (T : Type) where
  c0 : V4 T
  c1 : V4 T
deriving DecidableEq

structure M43 (T : Type) where
  c0 : V4 T
  c1 : V4 T
  c2 : V4 T
deriving DecidableEq

structure M4 (T : Type) where
  c0 : V4 T
  c1 : V4 T
  c2 : V4 T
  c3 : V4 T
deriving DecidableEq

/-- Constant generic shaped vector value (`ConstVVal`). -/
inductive ConstVVal (T : Type) where
  | Vec2 (v : V2 T)
  | Vec3 (v : V3 T)
  | Vec4 (v : V4 T)
deriving DecidableEq

/-- Constant generic shaped matrix value (`ConstMVal`). -/
inductive ConstMVal (T : Type) where
  | Mat2 (m : M2 T)
  | Mat23 (m : M23 T)
  | Mat24 (m : M24 T)
  | Mat32 (m : M32 T)
  | Mat3 (m : M3 T)
  | Mat34 (m : M34 T)
  | Mat42 (m : M42 T)
  | Mat43 (m : M43 T)
  | Mat4 (m : M4 T)
deriving DecidableEq

/-- Constant generic shaped scalar-or-vector value (`ConstSVVal`). -/
inductive ConstSVVal (T : Type) where
  | Scalar (v : T)
  | Vector (v : ConstVVal T)
deriving DecidableEq

/-- Constant generic shaped scalar, vector or matrix value (`ConstSVMVal`). -/
inductive ConstSVMVal (T : Type) where
  | Scalar (v : T)
  | Vector (v : ConstVVal T)
  | Matrix (v : ConstMVal T)
deriving DecidableEq

namespace ConstVVal

def get_shape {T : Type} : ConstVVal T → BaseTypeShape
  | .Vec2 _ => .Vec2
  | .Vec3 _ => .Vec3
  | .Vec4 _ => .Vec4

/-- Elements in column-major order (`column_iter`). -/
def columnList {T : Type} : ConstVVal T → List T
  | .Vec2 v => v.toList
  | .Vec3 v => v.toList
  | .Vec4 v => v.toList

def map {T R : Type} (f : T → R) : ConstVVal T → ConstVVal R
  | .Vec2 v => .Vec2 (v.map f)
  | .Vec3 v => .Vec3 (v.map f)
  | .Vec4 v => .Vec4 (v.map f)

/-- Component-wise map with a scalar operation that may panic. -/
def mapP {T R : Type} (f : T → Option R) : ConstVVal T → Option (ConstVVal R)
  | .Vec2 v => (v.mapP f).map .Vec2
  | .Vec3 v => (v.mapP f).map .Vec3
  | .Vec4 v => (v.mapP f).map .Vec4

/-- Pure `zip_map`; `none` iff the two shapes differ. -/
def zipMap {T1 T2 R : Type} (f : T1 → T2 → R) :
    ConstVVal T1 → ConstVVal T2 → Option (ConstVVal R)
  | .Vec2 a, .Vec2 b => some (.Vec2 (V2.zip f a b))
  | .Vec3 a, .Vec3 b => some (.Vec3 (V3.zip f a b))
  | .Vec4 a, .Vec4 b => some (.Vec4 (V4.zip f a b))
  | _, _ => none

/-- `zip_map` with a scalar operation that may panic: `absent` on a shape
mismatch, `panicked` if the scalar operation panics. -/
def zipMapP {T1 T2 R : Type} (f : T1 → T2 → Option R) :
    ConstVVal T1 → ConstVVal T2 → PRes (ConstVVal R)
  | .Vec2 a, .Vec2 b => PRes.ofPanic ((V2.zipP f a b).map .Vec2)
  | .Vec3 a, .Vec3 b => PRes.ofPanic ((V3.zipP f a b).map .Vec3)
  | .Vec4 a, .Vec4 b => PRes.ofPanic ((V4.zipP f a b).map .Vec4)
  | _, _ => .absent

end ConstVVal

namespace ConstMVal

def get_shape {T : Type} : ConstMVal T → BaseTypeShape
  | .Mat2 _ => .Mat2
  | .Mat23 _ => .Mat23
  | .Mat24 _ => .Mat24
  | .Mat32 _ => .Mat32
  | .Mat3 _ => .Mat3
  | .Mat34 _ => .Mat34
  | .Mat42 _ => .Mat42
  | .Mat43 _ => .Mat43
  | .Mat4 _ => .Mat4

/-- Elements in column-major order (`column_iter`, matching `as_slice` on
`nalgebra`'s column-major storage). -/
def columnList {T : Type} : ConstMVal T → List T
  | .Mat2 m => m.c0.toList ++ m.c1.toList
  | .Mat23 m => m.c0.toList ++ m.c1.toList ++ m.c2.toList
  | .Mat24 m => m.c0.toList ++ m.c1.toList ++ m.c2.toList ++ m.c3.toList
  | .Mat32 m => m.c0.toList ++ m.c1.toList
  | .Mat3 m => m.c0.toList ++ m.c1.toList ++ m.c2.toList
  | .Mat34 m => m.c0.toList ++ m.c1.toList ++ m.c2.toList ++ m.c3.toList
  | .Mat42 m => m.c0.toList ++ m.c1.toList
  | .Mat43 m => m.c0.toList ++ m.c1.toList ++ m.c2.toList
  | .Mat4 m => m.c0.toList ++ m.c1.toList ++ m.c2.toList ++ m.c3.toList

def map {T R : Type} (f : T → R) : ConstMVal T → ConstMVal R
  | .Mat2 m => .Mat2 ⟨m.c0.map f, m.c1.map f⟩
  | .Mat23 m => .Mat23 ⟨m.c0.map f, m.c1.map f, m.c2.map f⟩
  | .Mat24 m => .Mat24 ⟨m.c0.map f, m.c1.map f, m.c2.map f, m.c3.map f⟩
  | .Mat32 m => .Mat32 ⟨m.c0.map f, m.c1.map f⟩
  | .Mat3 m => .Mat3 ⟨m.c0.map f, m.c1.map f, m.c2.map f⟩
  | .Mat34 m => .Mat34 ⟨m.c0.map f, m.c1.map f, m.c2.map f, m.c3.map f⟩
  | .Mat42 m => .Mat42 ⟨m.c0.map f, m.c1.map f⟩
  | .Mat43 m => .Mat43 ⟨m.c0.map f, m.c1.map f, m.c2.map f⟩
  | .Mat4 m => .Mat4 ⟨m.c0.map f, m.c1.map f, m.c2.map f, m.c3.map f⟩

/-- Component-wise map with a scalar operation that may panic. -/
def mapP {T R : Type} (f : T → Option R) : ConstMVal T → Option (ConstMVal R)
  | .Mat2 m => do pure (.Mat2 ⟨← m.c0.mapP f, ← m.c1.mapP f⟩)
  | .Mat23 m => do pure (.Mat23 ⟨← m.c0.mapP f, ← m.c1.mapP f, ← m.c2.mapP f⟩)
  | .Mat24 m => do pure (.Mat24 ⟨← m.c0.mapP f, ← m.c1.mapP f, ← m.c2.mapP f, ← m.c3.mapP f⟩)
  | .Mat32 m => do pure (.Mat32 ⟨← m.c0.mapP f, ← m.c1.mapP f⟩)
  | .Mat3 m => do pure (.Mat3 ⟨← m.c0.mapP f, ← m.c1.mapP f, ← m.c2.mapP f⟩)
  | .Mat34 m => do pure (.Mat34 ⟨← m.c0.mapP f, ← m.c1.mapP f, ← m.c2.mapP f, ← m.c3.mapP f⟩)
  | .Mat42 m => do pure (.Mat42 ⟨← m.c0.mapP f, ← m.c1.mapP f⟩)
  | .Mat43 m => do pure (.Mat43 ⟨← m.c0.mapP f, ← m.c1.mapP f, ← m.c2.mapP f⟩)
  | .Mat4 m => do pure (.Mat4 ⟨← m.c0.mapP f, ← m.c1.mapP f, ← m.c2.mapP f, ← m.c3.mapP f⟩)

/-- Pure `zip_map`; `none` iff the two shapes differ. -/
def zipMap {T1 T2 R : Type} (f : T1 → T2 → R) :
    ConstMVal T1 → ConstMVal T2 → Option (ConstMVal R)
  | .Mat2 a, .Mat2 b => some (.Mat2 ⟨V2.zip f a.c0 b.c0, V2.zip f a.c1 b.c1⟩)
  | .Mat23 a, .Mat23 b =>
      some (.Mat23 ⟨V2.zip f a.c0 b.c0, V2.zip f a.c1 b.c1, V2.zip f a.c2 b.c2⟩)
  | .Mat24 a, .Mat24 b =>
      some (.Mat24 ⟨V2.zip f a.c0 b.c0, V2.zip f a.c1 b.c1, V2.zip f a.c2 b.c2,
        V2.zip f a.c3 b.c3⟩)
  | .Mat32 a, .Mat32 b => some (.Mat32 ⟨V3.zip f a.c0 b.c0, V3.zip f a.c1 b.c1⟩)
  | .Mat3 a, .Mat3 b =>
      some (.Mat3 ⟨V3.zip f a.c0 b.c0, V3.zip f a.c1 b.c1, V3.zip f a.c2 b.c2⟩)
  | .Mat34 a, .Mat34 b =>
      some (.Mat34 ⟨V3.zip f a.c0 b.c0, V3.zip f a.c1 b.c1, V3.zip f a.c2 b.c2,
        V3.zip f a.c3 b.c3⟩)
  | .Mat42 a, .Mat42 b => some (.Mat42 ⟨V4.zip f a.c0 b.c0, V4.zip f a.c1 b.c1⟩)
  | .Mat43 a, .Mat43 b =>
      some (.Mat43 ⟨V4.zip f a.c0 b.c0, V4.zip f a.c1 b.c1, V4.zip f a.c2 b.c2⟩)
  | .Mat4 a, .Mat4 b =>
      some (.Mat4 ⟨V4.zip f a.c0 b.c0, V4.zip f a.c1 b.c1, V4.zip f a.c2 b.c2,
        V4.zip f a.c3 b.c3⟩)
  | _, _ => none

/-- `zip_map` with a scalar operation that may panic. -/
def zipMapP {T1 T2 R : Type} (f : T1 → T2 → Option R) :
    ConstMVal T1 → ConstMVal T2 → PRes (ConstMVal R)
  | .Mat2 a, .Mat2 b =>
      PRes.ofPanic (do pure (.Mat2 ⟨← V2.zipP f a.c0 b.c0, ← V2.zipP f a.c1 b.c1⟩))
  | .Mat23 a, .Mat23 b =>
      PRes.ofPanic (do pure (.Mat23 ⟨← V2.zipP f a.c0 b.c0, ← V2.zipP f a.c1 b.c1,
        ← V2.zipP f a.c2 b.c2⟩))
  | .Mat24 a, .Mat24 b =>
      PRes.ofPanic (do pure (.Mat24 ⟨← V2.zipP f a.c0 b.c0, ← V2.zipP f a.c1 b.c1,
        ← V2.zipP f a.c2 b.c2, ← V2.zipP f a.c3 b.c3⟩))
  | .Mat32 a, .Mat32 b =>
      PRes.ofPanic (do pure (.Mat32 ⟨← V3.zipP f a.c0 b.c0, ← V3.zipP f a.c1 b.c1⟩))
  | .Mat3 a, .Mat3 b =>
      PRes.ofPanic (do pure (.Mat3 ⟨← V3.zipP f a.c0 b.c0, ← V3.zipP f a.c1 b.c1,
        ← V3.zipP f a.c2 b.c2⟩))
  | .Mat34 a, .Mat34 b =>
      PRes.ofPanic (do pure (.Mat34 ⟨← V3.zipP f a.c0 b.c0, ← V3.zipP f a.c1 b.c1,
        ← V3.zipP f a.c2 b.c2, ← V3.zipP f a.c3 b.c3⟩))
  | .Mat42 a, .Mat42 b =>
      PRes.ofPanic (do pure (.Mat42 ⟨← V4.zipP f a.c0 b.c0, ← V4.zipP f a.c1 b.c1⟩))
  | .Mat43 a, .Mat43 b =>
      PRes.ofPanic (do pure (.Mat43 ⟨← V4.zipP f a.c0 b.c0, ← V4.zipP f a.c1 b.c1,
        ← V4.zipP f a.c2 b.c2⟩))
  | .Mat4 a, .Mat4 b =>
      PRes.ofPanic (do pure (.Mat4 ⟨← V4.zipP f a.c0 b.c0, ← V4.zipP f a.c1 b.c1,
        ← V4.zipP f a.c2 b.c2, ← V4.zipP f a.c3 b.c3⟩))
  | _, _ => .absent

end ConstMVal

namespace ConstSVVal

def get_shape {T : Type} : ConstSVVal T → BaseTypeShape
  | .Scalar _ => .Scalar
  | .Vector v => v.get_shape

def columnList {T : Type} : ConstSVVal T → List T
  | .Scalar v => [v]
  | .Vector v => v.columnList

/-- First element of the column-major iteration; the source uses
`column_iter().next().unwrap()`, which never panics because every shaped
value is non-empty. -/
def headElem {T : Type} : ConstSVVal T → T
  | .Scalar v => v
  | .Vector (.Vec2 v) => v.x
  | .Vector (.Vec3 v) => v.x
  | .Vector (.Vec4 v) => v.x

def map {T R : Type} (f : T → R) : ConstSVVal T → ConstSVVal R
  | .Scalar v => .Scalar (f v)
  | .Vector v => .Vector (v.map f)

def mapP {T R : Type} (f : T → Option R) : ConstSVVal T → Option (ConstSVVal R)
  | .Scalar v => (f v).map .Scalar
  | .Vector v => (v.mapP f).map .Vector

def zipMap {T1 T2 R : Type} (f : T1 → T2 → R) :
    ConstSVVal T1 → ConstSVVal T2 → Option (ConstSVVal R)
  | .Scalar a, .Scalar b => some (.Scalar (f a b))
  | .Vector a, .Vector b => (a.zipMap f b).map .Vector
  | _, _ => none

def zipMapP {T1 T2 R : Type} (f : T1 → T2 → Option R) :
    ConstSVVal T1 → ConstSVVal T2 → PRes (ConstSVVal R)
  | .Scalar a, .Scalar b => PRes.ofPanic ((f a b).map .Scalar)
  | .Vector a, .Vector b => (a.zipMapP f b).map .Vector
  | _, _ => .absent

/-- Left fold over the column-major element order. -/
def fold {T R : Type} (v : ConstSVVal T) (init : R) (f : R → T → R) : R :=
  v.columnList.foldl f init

end ConstSVVal

namespace ConstSVMVal

def get_shape {T : Type} : ConstSVMVal T → BaseTypeShape
  | .Scalar _ => .Scalar
  | .Vector v => v.get_shape
  | .Matrix v => v.get_shape

def columnList {T : Type} : ConstSVMVal T → List T
  | .Scalar v => [v]
  | .Vector v => v.columnList
  | .Matrix v => v.columnList

def map {T R : Type} (f : T → R) : ConstSVMVal T → ConstSVMVal R
  | .Scalar v => .Scalar (f v)
  | .Vector v => .Vector (v.map f)
  | .Matrix v => .Matrix (v.map f)

def mapP {T R : Type} (f : T → Option R) : ConstSVMVal T → Option (ConstSVMVal R)
  | .Scalar v => (f v).map .Scalar
  | .Vector v => (v.mapP f).map .Vector
  | .Matrix v => (v.mapP f).map .Matrix

def zipMap {T1 T2 R : Type} (f : T1 → T2 → R) :
    ConstSVMVal T1 → ConstSVMVal T2 → Option (ConstSVMVal R)
  | .Scalar a, .Scalar b => some (.Scalar (f a b))
  | .Vector a, .Vector b => (a.zipMap f b).map .Vector
  | .Matrix a, .Matrix b => (a.zipMap f b).map .Matrix
  | _, _ => none

def zipMapP {T1 T2 R : Type} (f : T1 → T2 → Option R) :
    ConstSVMVal T1 → ConstSVMVal T2 → PRes (ConstSVMVal R)
  | .Scalar a, .Scalar b => PRes.ofPanic ((f a b).map .Scalar)
  | .Vector a, .Vector b => (a.zipMapP f b).map .Vector
  | .Matrix a, .Matrix b => (a.zipMapP f b).map .Matrix
  | _, _ => .absent

/-- Left fold over the column-major element order. -/
def fold {T R : Type} (v : ConstSVMVal T) (init : R) (f : R → T → R) : R :=
  v.columnList.foldl f init

/-- The `From<ConstSVVal> for ConstSVMVal` widening. -/
def ofSV {T : Type} : ConstSVVal T → ConstSVMVal T
  | .Scalar v => .Scalar v
  | .Vector v => .Vector v

/-- The `TryFrom<ConstSVMVal> for ConstSVVal` narrowing. -/
def toSV {T : Type} : ConstSVMVal T → Option (ConstSVVal T)
  | .Scalar v => some (.Scalar v)
  | .Vector v => some (.Vector v)
  | .Matrix _ => none

end ConstSVMVal

/-- The GLSL unary operators (`glsl::syntax::UnaryOp`). -/
inductive UnaryOp where
  | Inc | Dec | Add | Minus | Not | Complement
deriving DecidableEq

/-- The GLSL binary operators (`glsl::syntax::BinaryOp`). -/
inductive BinaryOp where
  | Or | Xor | And | BitOr | BitXor | BitAnd
  | Equal | NonEqual | LT | GT | LTE | GTE
  | LShift | RShift | Add | Sub | Mult | Div | Mod
deriving DecidableEq

/-- The GLSL assignment operators (`glsl::syntax::AssignmentOp`); the
propagator only clones them. -/
inductive AssignmentOp where
  | Equal | Mult | Div | Mod | Add | Sub | LShift | RShift | And | Xor | Or
deriving DecidableEq

/-- Expression AST (`glsl::syntax::Expr`).  Deviations from the `glsl`
crate, all structure-preserving:
* `FunIdentifier` is distributed over the `FunCall` node: `FunCall`
  carries an identifier callee and `FunCallE` an expression callee.
* An `ArraySpecifierDimension` is `Option Expr` (`none` = `Unsized`,
  `some e` = `ExplicitlySized e`), and the `NonEmpty` wrapper of
  `ArraySpecifier` is modelled as a plain list. -/
inductive Expr where
  | Variable (ident : String)
  | IntConst (v : Int32)
  | UIntConst (v : UInt32)
  | BoolConst (v : Bool)
  | FloatConst (v : F32)
  | DoubleConst (v : F64)
  | Unary (op : UnaryOp) (a : Expr)
  | Binary (op : BinaryOp) (a b : Expr)
  | Ternary (a b c : Expr)
  | Assignment (a : Expr) (op : AssignmentOp) (b : Expr)
  | Bracket (a : Expr) (spec : List (Option Expr))
  | FunCall (ident : String) (args : List Expr)
  | FunCallE (callee : Expr) (args : List Expr)
  | Dot (a : Expr) (ident : String)
  | PostInc (a : Expr)
  | PostDec (a : Expr)
  | Comma (a b : Expr)

/-- Struct type specifier (`glsl::syntax::StructSpecifier`).  Only the name
is carried: the propagator never inspects the field declarations, it only
clones the specifier. -/
structure StructSpecifier where
  name : Option String
deriving DecidableEq

/-- The non-array type specifiers produced by the constant evaluator
(`glsl::syntax::TypeSpecifierNonArray`, restricted to the variants this
file ever constructs). -/
inductive TypeSpecifierNonArray where
  | Bool | BVec2 | BVec3 | BVec4
  | Int | IVec2 | IVec3 | IVec4
  | UInt | UVec2 | UVec3 | UVec4
  | Float | Vec2 | Vec3 | Vec4
  | Mat2 | Mat23 | Mat24 | Mat32 | Mat3 | Mat34 | Mat42 | Mat43 | Mat4
  | Double | DVec2 | DVec3 | DVec4
  | DMat2 | DMat23 | DMat24 | DMat32 | DMat3 | DMat34 | DMat42 | DMat43 | DMat4
  | Struct (s : StructSpecifier)
deriving DecidableEq

/-- A (possibly array) type specifier (`glsl::syntax::TypeSpecifier`). -/
structure TypeSpecifier where
  ty : TypeSpecifierNonArray
  array_specifier : Option (List (Option Expr))

def TypeSpecifier.new (ty : TypeSpecifierNonArray) : TypeSpecifier := ⟨ty, none⟩

/-- A generic constant basic value (`ConstBaseVal`). -/
inductive ConstBaseVal where
  | Bool (v : ConstSVVal Bool)
  | Int (v : ConstSVVal Int32)
  | UInt (v : ConstSVVal UInt32)
  | Float (v : ConstSVMVal F32)
  | Double (v : ConstSVMVal F64)
deriving DecidableEq

namespace ConstBaseVal

def get_shape : ConstBaseVal → BaseTypeShape
  | .Bool v => v.get_shape
  | .Int v => v.get_shape
  | .UInt v => v.get_shape
  | .Float v => v.get_shape
  | .Double v => v.get_shape

def type_specifier_non_array : ConstBaseVal → TypeSpecifierNonArray
  | .Bool (.Scalar _) => .Bool
  | .Bool (.Vector (.Vec2 _)) => .BVec2
  | .Bool (.Vector (.Vec3 _)) => .BVec3
  | .Bool (.Vector (.Vec4 _)) => .BVec4
  | .Int (.Scalar _) => .Int
  | .Int (.Vector (.Vec2 _)) => .IVec2
  | .Int (.Vector (.Vec3 _)) => .IVec3
  | .Int (.Vector (.Vec4 _)) => .IVec4
  | .UInt (.Scalar _) => .UInt
  | .UInt (.Vector (.Vec2 _)) => .UVec2
  | .UInt (.Vector (.Vec3 _)) => .UVec3
  | .UInt (.Vector (.Vec4 _)) => .UVec4
  | .Float (.Scalar _) => .Float
  | .Float (.Vector (.Vec2 _)) => .Vec2
  | .Float (.Vector (.Vec3 _)) => .Vec3
  | .Float (.Vector (.Vec4 _)) => .Vec4
  | .Float (.Matrix (.Mat2 _)) => .Mat2
  | .Float (.Matrix (.Mat23 _)) => .Mat23
  | .Float (.Matrix (.Mat24 _)) => .Mat24
  | .Float (.Matrix (.Mat32 _)) => .Mat32
  | .Float (.Matrix (.Mat3 _)) => .Mat3
  | .Float (.Matrix (.Mat34 _)) => .Mat34
  | .Float (.Matrix (.Mat42 _)) => .Mat42
  | .Float (.Matrix (.Mat43 _)) => .Mat43
  | .Float (.Matrix (.Mat4 _)) => .Mat4
  | .Double (.Scalar _) => .Double
  | .Double (.Vector (.Vec2 _)) => .DVec2
  | .Double (.Vector (.Vec3 _)) => .DVec3
  | .Double (.Vector (.Vec4 _)) => .DVec4
  | .Double (.Matrix (.Mat2 _)) => .DMat2
  | .Double (.Matrix (.Mat23 _)) => .DMat23
  | .Double (.Matrix (.Mat24 _)) => .DMat24
  | .Double (.Matrix (.Mat32 _)) => .DMat32
  | .Double (.Matrix (.Mat3 _)) => .DMat3
  | .Double (.Matrix (.Mat34 _)) => .DMat34
  | .Double (.Matrix (.Mat42 _)) => .DMat42
  | .Double (.Matrix (.Mat43 _)) => .DMat43
  | .Double (.Matrix (.Mat4 _)) => .DMat4

def type_specifier (v : ConstBaseVal) : TypeSpecifier :=
  TypeSpecifier.new v.type_specifier_non_array

/-- Constructor name for a float matrix shape, exactly the strings used in
the source `as_expr` match arms (the scalar/vector fallback is never
reached). -/
def matCtorName : BaseTypeShape → String
  | .Mat2 => "mat2"
  | .Mat23 => "mat23"
  | .Mat24 => "mat24"
  | .Mat32 => "mat32"
  | .Mat3 => "mat3"
  | .Mat34 => "mat34"
  | .Mat42 => "mat42"
  | .Mat43 => "mat43"
  | .Mat4 => "mat4"
  | _ => "mat2"

/-- Converts a base value to an AST expression (`ConstBaseVal::as_expr`).
This is a faithful transcription of the source `match`, including the
`dvec4` constructor name the source emits for all three double vector
shapes. -/
def as_expr : ConstBaseVal → Expr
  | .Bool (.Scalar v) => .BoolConst v
  | .Bool (.Vector (.Vec2 v)) => .FunCall "bvec2" (v.toList.map Expr.BoolConst)
  | .Bool (.Vector (.Vec3 v)) => .FunCall "bvec3" (v.toList.map Expr.BoolConst)
  | .Bool (.Vector (.Vec4 v)) => .FunCall "bvec4" (v.toList.map Expr.BoolConst)
  | .Int (.Scalar v) => .IntConst v
  | .Int (.Vector (.Vec2 v)) => .FunCall "ivec2" (v.toList.map Expr.IntConst)
  | .Int (.Vector (.Vec3 v)) => .FunCall "ivec3" (v.toList.map Expr.IntConst)
  | .Int (.Vector (.Vec4 v)) => .FunCall "ivec4" (v.toList.map Expr.IntConst)
  | .UInt (.Scalar v) => .UIntConst v
  | .UInt (.Vector (.Vec2 v)) => .FunCall "uvec2" (v.toList.map Expr.UIntConst)
  | .UInt (.Vector (.Vec3 v)) => .FunCall "uvec3" (v.toList.map Expr.UIntConst)
  | .UInt (.Vector (.Vec4 v)) => .FunCall "uvec4" (v.toList.map Expr.UIntConst)
  | .Float (.Scalar v) => .FloatConst v
  | .Float (.Vector (.Vec2 v)) => .FunCall "vec2" (v.toList.map Expr.FloatConst)
  | .Float (.Vector (.Vec3 v)) => .FunCall "vec3" (v.toList.map Expr.FloatConst)
  | .Float (.Vector (.Vec4 v)) => .FunCall "vec4" (v.toList.map Expr.FloatConst)
  | .Float (.Matrix m) =>
      .FunCall (matCtorName m.get_shape) (m.columnList.map Expr.FloatConst)
  | .Double (.Scalar v) => .DoubleConst v
  | .Double (.Vector (.Vec2 v)) => .FunCall "dvec4" (v.toList.map Expr.DoubleConst)
  | .Double (.Vector (.Vec3 v)) => .FunCall "dvec4" (v.toList.map Expr.DoubleConst)
  | .Double (.Vector (.Vec4 v)) => .FunCall "dvec4" (v.toList.map Expr.DoubleConst)
  | .Double (.Matrix m) =>
      .FunCall ("d" ++ matCtorName m.get_shape) (m.columnList.map Expr.DoubleConst)

end ConstBaseVal

/-- A constant array value generic in the element sum type (`ConstArray`
is the instantiation at `ConstVal`): dimension list, flat row-major
store, and the element type specifier.  Field `type_spec` models the
source field `type_specifier` (renamed to leave room for the method of
the same name). -/
structure ConstArrayG (α : Type) where
  type_spec : TypeSpecifierNonArray
  dims : List UInt32
  data : List α

/-- A constant struct value generic in the element sum type (`ConstStruct`
is the instantiation at `ConstVal`); the `HashMap` of entries is modelled
as an association list keyed by field name. -/
structure ConstStructG (α : Type) where
  type_spec : StructSpecifier
  entries : List (String × α)

/-- Any constant value (`ConstVal`). -/
inductive ConstVal where
  | Base (v : ConstBaseVal)
  | Array (v : ConstArrayG ConstVal)
  | Struct (v : ConstStructG ConstVal)

/-- A constant array value (`ConstArray`). -/
abbrev ConstArray := ConstArrayG ConstVal

/-- A constant struct value (`ConstStruct`). -/
abbrev ConstStruct := ConstStructG ConstVal

namespace ConstArray

/-- Inner loop of `ConstArray::get`: walks dimension/index pairs keeping
the running cumulative stride and flat index, bailing out (`none`) exactly
when the source's `indices[i] > self.dims[i]` test fires.  The final
catch-all arm is unreachable under the caller's length check. -/
def flatIndex : List UInt32 → List UInt32 → Nat → Nat → Option Nat
  | [], [], _, index => some index
  | d :: ds, i :: is, cumulative, index =>
      if i > d then none
      else flatIndex ds is (cumulative * d) (index + cumulative * i)
  | _, _, _, _ => none

/-- The array accessor (`ConstArray::get`). -/
def get (a : ConstArray) (indices : List UInt32) : Option ConstVal :=
  if a.dims.length ≠ indices.length then none
  else
    match flatIndex a.dims indices 1 0 with
    | none => none
    | some index => a.data.get? index

/-- The array type specifier (`ConstArray::type_specifier`): the element
specifier with every dimension recorded as an explicitly sized
`UIntConst` expression. -/
def type_specifier (a : ConstArray) : TypeSpecifier :=
  ⟨a.type_spec, some (a.dims.map fun d => some (Expr.UIntConst d))⟩

end ConstArray

namespace ConstStruct

/-- Field lookup by name (the `ConstLookup` impl for `ConstStruct`). -/
def lookup_const (s : ConstStruct) (ident : String) : Option ConstVal :=
  (s.entries.find? fun e => e.1 = ident).map Prod.snd

def type_specifier (s : ConstStruct) : TypeSpecifier :=
  TypeSpecifier.new (.Struct s.type_spec)

end ConstStruct

namespace ConstVal

def try_into_base : ConstVal → Option ConstBaseVal
  | .Base v => some v
  | _ => none

def type_specifier : ConstVal → TypeSpecifier
  | .Base v => v.type_specifier
  | .Array v => ConstArray.type_specifier v
  | .Struct v => ConstStruct.type_specifier v

/-- `ConstVal::as_expr` is `todo!()` for arrays and structs: converting a
non-base constant into an expression panics, which we model as `none`. -/
def as_expr : ConstVal → Option Expr
  | .Base v => some v.as_expr
  | .Array _ => none
  | .Struct _ => none

end ConstVal

/-- Result of propagation at one node (`ConstValOrExpr`). -/
inductive ConstValOrExpr where
  | Const (v : ConstVal)
  | Expr (e : ConstEval.Expr)

/-- The `From<ConstValOrExpr> for Expr` conversion; it calls
`ConstVal::as_expr` on the constant side and therefore panics (`none`) on
array and struct constants. -/
def ConstValOrExpr.toExpr : ConstValOrExpr → Option ConstEval.Expr
  | .Const v => v.as_expr
  | .Expr e => some e

/-- Error taxonomy of the propagator (`ConstEvalError`). -/
inductive ConstEvalError where
  | UnaryOpExpectedLValue (op : UnaryOp)
  | UnknownStructureMember (name : String)
  | DotStructureRequired
  | TernaryExpectedScalarBool
  | AssignmentExpectedLValue
  | PostOpExpectedLValue
  | UnknownIdentifier (name : String)
  | IllegalExpression
  | IllegalUnaryOp (op : UnaryOp)
  | IllegalUnaryOperand (op : UnaryOp) (ty : TypeSpecifier)
  | IllegalBinaryOp (op : BinaryOp)
  | IllegalBinaryOperand (op : BinaryOp) (lhs rhs : TypeSpecifier)
  | NoMatchingFunctionOverload

/-- Comparison of naturals with the `Ordering` result, mirroring the
comparator semantics of Rust's derived `Ord` on a fieldless enum when
applied to discriminants. -/
def cmpNat (a b : Nat) : Ordering :=
  if a < b then .lt else if b < a then .gt else .eq

/-- Base type of a function parameter (`ParameterBaseType`). -/
inductive ParameterBaseType where
  | Bool | Int | UInt | Float | Double
deriving DecidableEq, Fintype

namespace ParameterBaseType

/-- Discriminant order of the Rust enum declaration. -/
def toIdx : ParameterBaseType → Nat
  | .Bool => 0
  | .Int => 1
  | .UInt => 2
  | .Float => 3
  | .Double => 4

def from_const_val : ConstBaseVal → ParameterBaseType
  | .Bool _ => .Bool
  | .Int _ => .Int
  | .UInt _ => .UInt
  | .Float _ => .Float
  | .Double _ => .Double

/-- The GLSL implicit-cast partial order (`ParameterBaseType::cast_cmp`):
`a < b` iff `a` implicitly casts to `b`. -/
def cast_cmp (a b : ParameterBaseType) : Option Ordering :=
  if a = b then some .eq
  else
    match a, b with
    | .Int, .UInt | .Int, .Float | .Int, .Double
    | .UInt, .Float | .UInt, .Double
    | .Float, .Double => some .lt
    | .UInt, .Int | .Float, .Int | .Double, .Int
    | .Float, .UInt | .Double, .UInt
    | .Double, .Float => some .gt
    | _, _ => none

def can_cast_into (a b : ParameterBaseType) :=
  match a.cast_cmp b with
  | some .lt | some .eq => true
  | _ => false

/-- Rust's derived `Ord::cmp` on the enum (discriminant order). -/
def enumCmp (a b : ParameterBaseType) : Ordering := cmpNat a.toIdx b.toIdx

/-- Rust's derived `PartialOrd::partial_cmp` on the enum: total, so always
`some`.  Note this is what `ParameterType::cast_cmp` calls via
`self.base_type.partial_cmp(..)` — the derived order, not `cast_cmp`. -/
def cmpOpt (a b : ParameterBaseType) : Option Ordering := some (enumCmp a b)

end ParameterBaseType

/-- Shape of a function parameter, including the generic family shapes
(`ParameterShape`), in the declaration order of the Rust enum. -/
inductive ParameterShape where
  | Scalar | Vec2 | Vec3 | Vec4 | GenericSV
  | Mat2 | Mat23 | Mat24 | Mat32 | Mat3 | Mat34 | Mat42 | Mat43 | Mat4
  | GenericM | GenericSVM
deriving DecidableEq, Fintype

namespace ParameterShape

/-- Discriminant order of the Rust enum declaration. -/
def toIdx : ParameterShape → Nat
  | .Scalar => 0
  | .Vec2 => 1
  | .Vec3 => 2
  | .Vec4 => 3
  | .GenericSV => 4
  | .Mat2 => 5
  | .Mat23 => 6
  | .Mat24 => 7
  | .Mat32 => 8
  | .Mat3 => 9
  | .Mat34 => 10
  | .Mat42 => 11
  | .Mat43 => 12
  | .Mat4 => 13
  | .GenericM => 14
  | .GenericSVM => 15

/-- Whether a parameter shape accepts a value shape
(`ParameterShape::matches`; the guillemets work around the Lean keyword).
The `GenericM` arm is transcribed exactly as written in the source: it
tests `is_vector`. -/
def «matches» : ParameterShape → BaseTypeShape → Bool
  | .Scalar, val => val.is_scalar
  | .Vec2, val => val = BaseTypeShape.Vec2
  | .Vec3, val => val = BaseTypeShape.Vec3
  | .Vec4, val => val = BaseTypeShape.Vec4
  | .GenericSV, val => val.is_scalar || val.is_vector
  | .Mat2, val => val = BaseTypeShape.Mat2
  | .Mat23, val => val = BaseTypeShape.Mat23
  | .Mat24, val => val = BaseTypeShape.Mat24
  | .Mat32, val => val = BaseTypeShape.Mat32
  | .Mat3, val => val = BaseTypeShape.Mat3
  | .Mat34, val => val = BaseTypeShape.Mat34
  | .Mat42, val => val = BaseTypeShape.Mat42
  | .Mat43, val => val = BaseTypeShape.Mat43
  | .Mat4, val => val = BaseTypeShape.Mat4
  | .GenericM, val => val.is_vector
  | .GenericSVM, _ => true

/-- Rust's derived `Ord::cmp` on the enum (discriminant order). -/
def enumCmp (a b : ParameterShape) : Ordering := cmpNat a.toIdx b.toIdx

end ParameterShape

/-- A function parameter type: base type plus shape (`ParameterType`). -/
structure ParameterType where
  base_type : ParameterBaseType
  shape : ParameterShape
deriving DecidableEq, Fintype

namespace ParameterType

def new (base_type : ParameterBaseType) (shape : ParameterShape) : ParameterType :=
  ⟨base_type, shape⟩

/-- `ParameterType::cast_cmp`: compare shapes by their derived enum order;
on equal shapes fall back to the base types, where the source calls the
derived `partial_cmp` (total) with an `unwrap_or_else` on the derived
`cmp` — so both branches are the enum order. -/
def cast_cmp (a b : ParameterType) : Ordering :=
  let shape_ord := a.shape.enumCmp b.shape
  if shape_ord = .eq then
    (a.base_type.cmpOpt b.base_type).getD (a.base_type.enumCmp b.base_type)
  else shape_ord

end ParameterType

/-- Descriptor pair computed by the dispatcher for each argument. -/
abbrev ArgDescr := BaseTypeShape × ParameterBaseType

/-- Descriptors of a parameter list, as computed at the top of
`ConstEvalFunction::eval`. -/
def argDescrs (params : List ConstBaseVal) : List ArgDescr :=
  params.map fun p => (p.get_shape, ParameterBaseType.from_const_val p)

/-- An instance of a const evaluable function
(`ConstEvalFunctionInstance`): an optional fixed prototype (`none` for
generic instances) and the evaluator.  The evaluator result distinguishes
panics from the absent/present outcomes of the boxed Rust closure. -/
structure ConstEvalFunctionInstance where
  prototype : Option (List ParameterType)
  function : List ConstBaseVal → PRes ConstBaseVal

namespace ConstEvalFunctionInstance

def from_generic (f : List ConstBaseVal → PRes ConstBaseVal) :
    ConstEvalFunctionInstance :=
  ⟨none, f⟩

/-- Compatibility of a typed instance with argument descriptors
(`ConstEvalFunctionInstance::compatible_with`). -/
def compatible_with (inst : ConstEvalFunctionInstance) (params : List ArgDescr) :
    Bool :=
  match inst.prototype with
  | none => true
  | some proto =>
      if params.length ≠ proto.length then false
      else
        (params.zip proto).all fun x =>
          ParameterShape.«matches» x.2.shape x.1.1 &&
            ParameterBaseType.can_cast_into x.1.2 x.2.base_type

/-- The lexicographic prototype fold of
`ConstEvalFunctionInstance::cast_cmp`, transcribed from the source
`fold`. -/
def listCastCmp (p1 p2 : List ParameterType) : Ordering :=
  (p1.zip p2).foldl (fun i ab => if i = .eq then ab.1.cast_cmp ab.2 else i) .eq

/-- Dispatch order between instances
(`ConstEvalFunctionInstance::cast_cmp`): typed before generic; typed
prototypes by length, then lexicographically per parameter. -/
def cast_cmp (a b : ConstEvalFunctionInstance) : Ordering :=
  match a.prototype, b.prototype with
  | some p1, some p2 =>
      let len_cmp := cmpNat p1.length p2.length
      if len_cmp = .eq then listCastCmp p1 p2 else len_cmp
  | none, some _ => .gt
  | some _, none => .lt
  | none, none => .eq

end ConstEvalFunctionInstance

/-- Bundle of the `ConstParameter` trait for a Lean carrier type:
prototype entry, implicit-cast extraction from a base value, and the
result injection back into a base value. -/
structure ConstParam (α : Type) where
  ptype : ParameterType
  try_cast_from : ConstBaseVal → Option α
  into_const_base_val : α → ConstBaseVal

/-- `ConstEvalFunctionInstance::from_fn_0`: the closure panics on a
parameter-count mismatch and otherwise always produces a value. -/
def from_fn_0 {ρ : Type} (toBase : ρ → ConstBaseVal) (f : Unit → ρ) :
    ConstEvalFunctionInstance where
  prototype := some []
  function := fun params =>
    match params with
    | [] => .present (toBase (f ()))
    | _ => .panicked

/-- `ConstEvalFunctionInstance::from_fn_1`: panics on a parameter-count
mismatch or a failing implicit cast; the wrapped closure may itself
return absent or panic. -/
def from_fn_1 {α ρ : Type} (P0 : ConstParam α) (toBase : ρ → ConstBaseVal)
    (f : α → PRes ρ) : ConstEvalFunctionInstance where
  prototype := some [P0.ptype]
  function := fun params =>
    match params with
    | [p0] =>
        match P0.try_cast_from p0 with
        | none => .panicked
        | some a => (f a).map toBase
    | _ => .panicked

/-- `ConstEvalFunctionInstance::from_fn_2`: panics on a parameter-count
mismatch or a failing implicit cast; the wrapped closure may itself
return absent or panic. -/
def from_fn_2 {α β ρ : Type} (P0 : ConstParam α) (P1 : ConstParam β)
    (toBase : ρ → ConstBaseVal) (f : α → β → PRes ρ) : ConstEvalFunctionInstance where
  prototype := some [P0.ptype, P1.ptype]
  function := fun params =>
    match params with
    | [p0, p1] =>
        match P0.try_cast_from p0 with
        | none => .panicked
        | some a =>
            match P1.try_cast_from p1 with
            | none => .panicked
            | some b => (f a b).map toBase
    | _ => .panicked

/-- Builder for const evaluable functions (`ConstEvalFunctionBuilder`);
overloads accumulate in registration order. -/
structure ConstEvalFunctionBuilder where
  overloads : List ConstEvalFunctionInstance

namespace ConstEvalFunctionBuilder

def new : ConstEvalFunctionBuilder := ⟨[]⟩

def push (b : ConstEvalFunctionBuilder) (inst : ConstEvalFunctionInstance) :
    ConstEvalFunctionBuilder :=
  ⟨b.overloads ++ [inst]⟩

def add_generic (b : ConstEvalFunctionBuilder)
    (f : List ConstBaseVal → PRes ConstBaseVal) : ConstEvalFunctionBuilder :=
  b.push (ConstEvalFunctionInstance.from_generic f)

def add_overload_0 {ρ : Type} (b : ConstEvalFunctionBuilder)
    (toBase : ρ → ConstBaseVal) (f : Unit → ρ) : ConstEvalFunctionBuilder :=
  b.push (from_fn_0 toBase f)

def add_overload_1 {α ρ : Type} (b : ConstEvalFunctionBuilder) (P0 : ConstParam α)
    (toBase : ρ → ConstBaseVal) (f : α → PRes ρ) : ConstEvalFunctionBuilder :=
  b.push (from_fn_1 P0 toBase f)

def add_overload_2 {α β ρ : Type} (b : ConstEvalFunctionBuilder) (P0 : ConstParam α)
    (P1 : ConstParam β) (toBase : ρ → ConstBaseVal) (f : α → β → PRes ρ) :
    ConstEvalFunctionBuilder :=
  b.push (from_fn_2 P0 P1 toBase f)

end ConstEvalFunctionBuilder

/-- Stable insertion of an instance into a list sorted by
`cast_cmp`-ascending order: the element goes after every element it does
not strictly precede. -/
def insertByCastCmp (x : ConstEvalFunctionInstance) :
    List ConstEvalFunctionInstance → List ConstEvalFunctionInstance
  | [] => [x]
  | y :: ys =>
      if x.cast_cmp y = .lt then x :: y :: ys else y :: insertByCastCmp x ys

/-- Stable sort by `cast_cmp` (insertion sort, processing the overloads in
registration order).  `slice::sort_by` in the source is a stable sort and
`cast_cmp` is a lawful total preorder, so the two sorts agree. -/
def sortByCastCmp (l : List ConstEvalFunctionInstance) :
    List ConstEvalFunctionInstance :=
  l.foldl (fun acc x => insertByCastCmp x acc) []

/-- A built const evaluable function (`ConstEvalFunction`). -/
structure ConstEvalFunction where
  overloads : List ConstEvalFunctionInstance

/-- `ConstEvalFunctionBuilder::build`: sort the overloads by dispatch
order. -/
def ConstEvalFunctionBuilder.build (b : ConstEvalFunctionBuilder) :
    ConstEvalFunction :=
  ⟨sortByCastCmp b.overloads⟩

/-- The dispatch scan of `ConstEvalFunction::eval`: first compatible
instance whose evaluator is present wins; an evaluator panic aborts the
scan; compatible-but-absent instances are skipped. -/
def evalScan (types : List ArgDescr) (params : List ConstBaseVal) :
    List ConstEvalFunctionInstance → PRes ConstBaseVal
  | [] => .absent
  | inst :: rest =>
      if inst.compatible_with types then
        match inst.function params with
        | .present r => .present r
        | .panicked => .panicked
        | .absent => evalScan types params rest
      else evalScan types params rest

/-- `ConstEvalFunction::eval`. -/
def ConstEvalFunction.eval (f : ConstEvalFunction) (params : List ConstBaseVal) :
    PRes ConstBaseVal :=
  evalScan (argDescrs params) params f.overloads

/-! Shape extractors backing the `TryFrom` chains used by the
`ConstParameter` impls. -/

def ConstSVVal.exScalar {T : Type} : ConstSVVal T → Option T
  | .Scalar v => some v
  | _ => none

def ConstSVVal.exV2 {T : Type} : ConstSVVal T → Option (V2 T)
  | .Vector (.Vec2 v) => some v
  | _ => none

def ConstSVVal.exV3 {T : Type} : ConstSVVal T → Option (V3 T)
  | .Vector (.Vec3 v) => some v
  | _ => none

def ConstSVVal.exV4 {T : Type} : ConstSVVal T → Option (V4 T)
  | .Vector (.Vec4 v) => some v
  | _ => none

def ConstSVMVal.exScalar {T : Type} : ConstSVMVal T → Option T
  | .Scalar v => some v
  | _ => none

def ConstSVMVal.exV2 {T : Type} : ConstSVMVal T → Option (V2 T)
  | .Vector (.Vec2 v) => some v
  | _ => none

def ConstSVMVal.exV3 {T : Type} : ConstSVMVal T → Option (V3 T)
  | .Vector (.Vec3 v) => some v
  | _ => none

def ConstSVMVal.exV4 {T : Type} : ConstSVMVal T → Option (V4 T)
  | .Vector (.Vec4 v) => some v
  | _ => none

def ConstSVMVal.exM2 {T : Type} : ConstSVMVal T → Option (M2 T)
  | .Matrix (.Mat2 m) => some m
  | _ => none

def ConstSVMVal.exM23 {T : Type} : ConstSVMVal T → Option (M23 T)
  | .Matrix (.Mat23 m) => some m
  | _ => none

def ConstSVMVal.exM24 {T : Type} : ConstSVMVal T → Option (M24 T)
  | .Matrix (.Mat24 m) => some m
  | _ => none

def ConstSVMVal.exM32 {T : Type} : ConstSVMVal T → Option (M32 T)
  | .Matrix (.Mat32 m) => some m
  | _ => none

def ConstSVMVal.exM3 {T : Type} : ConstSVMVal T → Option (M3 T)
  | .Matrix (.Mat3 m) => some m
  | _ => none

def ConstSVMVal.exM34 {T : Type} : ConstSVMVal T → Option (M34 T)
  | .Matrix (.Mat34 m) => some m
  | _ => none

def ConstSVMVal.exM42 {T : Type} : ConstSVMVal T → Option (M42 T)
  | .Matrix (.Mat42 m) => some m
  | _ => none

def ConstSVMVal.exM43 {T : Type} : ConstSVMVal T → Option (M43 T)
  | .Matrix (.Mat43 m) => some m
  | _ => none

def ConstSVMVal.exM4 {T : Type} : ConstSVMVal T → Option (M4 T)
  | .Matrix (.Mat4 m) => some m
  | _ => none

def ConstSVMVal.exM {T : Type} : ConstSVMVal T → Option (ConstMVal T)
  | .Matrix m => some m
  | _ => none

/-! Conversion preludes of the per-base-type `ConstParameter` macros: a
value is first brought into the prototype's base-type family (implicit
cast), then narrowed to the prototype's shape. -/

/-- `const_param_bool!`: only `Bool` values are accepted. -/
def asBoolSV : ConstBaseVal → Option (ConstSVVal Bool)
  | .Bool v => some v
  | _ => none

/-- `const_param_int!`: only `Int` values are accepted. -/
def asIntSV : ConstBaseVal → Option (ConstSVVal Int32)
  | .Int v => some v
  | _ => none

/-- `const_param_uint!`: `Int` values are cast component-wise, `UInt`
values pass through. -/
def asUIntSV : ConstBaseVal → Option (ConstSVVal UInt32)
  | .Int v => some (v.map u32_of_i32)
  | .UInt v => some v
  | _ => none

/-- `const_param_float!`: `Int`/`UInt` values are cast component-wise and
widened into the SVM family, `Float` values pass through. -/
def asFloatSVM : ConstBaseVal → Option (ConstSVMVal F32)
  | .Int v => some (ConstSVMVal.ofSV (v.map (Int.cast : Int → Rat)))
  | .UInt v => some (ConstSVMVal.ofSV (v.map (Nat.cast : Nat → Rat)))
  | .Float v => some v
  | _ => none

/-- `const_param_double!`: `Int`/`UInt`/`Float` values are cast
component-wise, `Double` values pass through. -/
def asDoubleSVM : ConstBaseVal → Option (ConstSVMVal F64)
  | .Int v => some (ConstSVMVal.ofSV (v.map (Int.cast : Int → Rat)))
  | .UInt v => some (ConstSVMVal.ofSV (v.map (Nat.cast : Nat → Rat)))
  | .Float v => some v
  | .Double v => some v
  | _ => none

/-! The `ConstParameter` bundles used by the builtin tables. -/

def cpBool : ConstParam Bool :=
  ⟨.new .Bool .Scalar, fun v => (asBoolSV v).bind ConstSVVal.exScalar,
    fun b => .Bool (.Scalar b)⟩

def cpBoolSV : ConstParam (ConstSVVal Bool) :=
  ⟨.new .Bool .GenericSV, asBoolSV, fun v => .Bool v⟩

def cpInt : ConstParam Int32 :=
  ⟨.new .Int .Scalar, fun v => (asIntSV v).bind ConstSVVal.exScalar,
    fun a => .Int (.Scalar a)⟩

def cpIntSV : ConstParam (ConstSVVal Int32) :=
  ⟨.new .Int .GenericSV, asIntSV, fun v => .Int v⟩

def cpUInt : ConstParam UInt32 :=
  ⟨.new .UInt .Scalar, fun v => (asUIntSV v).bind ConstSVVal.exScalar,
    fun a => .UInt (.Scalar a)⟩

def cpUIntSV : ConstParam (ConstSVVal UInt32) :=
  ⟨.new .UInt .GenericSV, asUIntSV, fun v => .UInt v⟩

def cpF32 : ConstParam F32 :=
  ⟨.new .Float .Scalar, fun v => (asFloatSVM v).bind ConstSVMVal.exScalar,
    fun a => .Float (.Scalar a)⟩

def cpF32V2 : ConstParam (V2 F32) :=
  ⟨.new .Float .Vec2, fun v => (asFloatSVM v).bind ConstSVMVal.exV2,
    fun a => .Float (.Vector (.Vec2 a))⟩

def cpF32V3 : ConstParam (V3 F32) :=
  ⟨.new .Float .Vec3, fun v => (asFloatSVM v).bind ConstSVMVal.exV3,
    fun a => .Float (.Vector (.Vec3 a))⟩

def cpF32V4 : ConstParam (V4 F32) :=
  ⟨.new .Float .Vec4, fun v => (asFloatSVM v).bind ConstSVMVal.exV4,
    fun a => .Float (.Vector (.Vec4 a))⟩

def cpF32M2 : ConstParam (M2 F32) :=
  ⟨.new .Float .Mat2, fun v => (asFloatSVM v).bind ConstSVMVal.exM2,
    fun a => .Float (.Matrix (.Mat2 a))⟩

def cpF32M23 : ConstParam (M23 F32) :=
  ⟨.new .Float .Mat23, fun v => (asFloatSVM v).bind ConstSVMVal.exM23,
    fun a => .Float (.Matrix (.Mat23 a))⟩

def cpF32M24 : ConstParam (M24 F32) :=
  ⟨.new .Float .Mat24, fun v => (asFloatSVM v).bind ConstSVMVal.exM24,
    fun a => .Float (.Matrix (.Mat24 a))⟩

def cpF32M32 : ConstParam (M32 F32) :=
  ⟨.new .Float .Mat32, fun v => (asFloatSVM v).bind ConstSVMVal.exM32,
    fun a => .Float (.Matrix (.Mat32 a))⟩

def cpF32M3 : ConstParam (M3 F32) :=
  ⟨.new .Float .Mat3, fun v => (asFloatSVM v).bind ConstSVMVal.exM3,
    fun a => .Float (.Matrix (.Mat3 a))⟩

def cpF32M34 : ConstParam (M34 F32) :=
  ⟨.new .Float .Mat34, fun v => (asFloatSVM v).bind ConstSVMVal.exM34,
    fun a => .Float (.Matrix (.Mat34 a))⟩

def cpF32M42 : ConstParam (M42 F32) :=
  ⟨.new .Float .Mat42, fun v => (asFloatSVM v).bind ConstSVMVal.exM42,
    fun a => .Float (.Matrix (.Mat42 a))⟩

def cpF32M43 : ConstParam (M43 F32) :=
  ⟨.new .Float .Mat43, fun v => (asFloatSVM v).bind ConstSVMVal.exM43,
    fun a => .Float (.Matrix (.Mat43 a))⟩

def cpF32M4 : ConstParam (M4 F32) :=
  ⟨.new .Float .Mat4, fun v => (asFloatSVM v).bind ConstSVMVal.exM4,
    fun a => .Float (.Matrix (.Mat4 a))⟩

def cpF32M : ConstParam (ConstMVal F32) :=
  ⟨.new .Float .GenericM, fun v => (asFloatSVM v).bind ConstSVMVal.exM,
    fun a => .Float (.Matrix a)⟩

def cpF32SV : ConstParam (ConstSVVal F32) :=
  ⟨.new .Float .GenericSV, fun v => (asFloatSVM v).bind ConstSVMVal.toSV,
    fun a => .Float (ConstSVMVal.ofSV a)⟩

def cpF32SVM : ConstParam (ConstSVMVal F32) :=
  ⟨.new .Float .GenericSVM, asFloatSVM, fun a => .Float a⟩

def cpF64 : ConstParam F64 :=
  ⟨.new .Double .Scalar, fun v => (asDoubleSVM v).bind ConstSVMVal.exScalar,
    fun a => .Double (.Scalar a)⟩

def cpF64V2 : ConstParam (V2 F64) :=
  ⟨.new .Double .Vec2, fun v => (asDoubleSVM v).bind ConstSVMVal.exV2,
    fun a => .Double (.Vector (.Vec2 a))⟩

def cpF64V3 : ConstParam (V3 F64) :=
  ⟨.new .Double .Vec3, fun v => (asDoubleSVM v).bind ConstSVMVal.exV3,
    fun a => .Double (.Vector (.Vec3 a))⟩

def cpF64V4 : ConstParam (V4 F64) :=
  ⟨.new .Double .Vec4, fun v => (asDoubleSVM v).bind ConstSVMVal.exV4,
    fun a => .Double (.Vector (.Vec4 a))⟩

def cpF64M2 : ConstParam (M2 F64) :=
  ⟨.new .Double .Mat2, fun v => (asDoubleSVM v).bind ConstSVMVal.exM2,
    fun a => .Double (.Matrix (.Mat2 a))⟩

def cpF64M23 : ConstParam (M23 F64) :=
  ⟨.new .Double .Mat23, fun v => (asDoubleSVM v).bind ConstSVMVal.exM23,
    fun a => .Double (.Matrix (.Mat23 a))⟩

def cpF64M24 : ConstParam (M24 F64) :=
  ⟨.new .Double .Mat24, fun v => (asDoubleSVM v).bind ConstSVMVal.exM24,
    fun a => .Double (.Matrix (.Mat24 a))⟩

def cpF64M32 : ConstParam (M32 F64) :=
  ⟨.new .Double .Mat32, fun v => (asDoubleSVM v).bind ConstSVMVal.exM32,
    fun a => .Double (.Matrix (.Mat32 a))⟩

def cpF64M3 : ConstParam (M3 F64) :=
  ⟨.new .Double .Mat3, fun v => (asDoubleSVM v).bind ConstSVMVal.exM3,
    fun a => .Double (.Matrix (.Mat3 a))⟩

def cpF64M34 : ConstParam (M34 F64) :=
  ⟨.new .Double .Mat34, fun v => (asDoubleSVM v).bind ConstSVMVal.exM34,
    fun a => .Double (.Matrix (.Mat34 a))⟩

def cpF64M42 : ConstParam (M42 F64) :=
  ⟨.new .Double .Mat42, fun v => (asDoubleSVM v).bind ConstSVMVal.exM42,
    fun a => .Double (.Matrix (.Mat42 a))⟩

def cpF64M43 : ConstParam (M43 F64) :=
  ⟨.new .Double .Mat43, fun v => (asDoubleSVM v).bind ConstSVMVal.exM43,
    fun a => .Double (.Matrix (.Mat43 a))⟩

def cpF64M4 : ConstParam (M4 F64) :=
  ⟨.new .Double .Mat4, fun v => (asDoubleSVM v).bind ConstSVMVal.exM4,
    fun a => .Double (.Matrix (.Mat4 a))⟩

def cpF64M : ConstParam (ConstMVal F64) :=
  ⟨.new .Double .GenericM, fun v => (asDoubleSVM v).bind ConstSVMVal.exM,
    fun a => .Double (.Matrix a)⟩

def cpF64SV : ConstParam (ConstSVVal F64) :=
  ⟨.new .Double .GenericSV, fun v => (asDoubleSVM v).bind ConstSVMVal.toSV,
    fun a => .Double (ConstSVMVal.ofSV a)⟩

def cpF64SVM : ConstParam (ConstSVMVal F64) :=
  ⟨.new .Double .GenericSVM, asDoubleSVM, fun a => .Double a⟩

/-! Registration helpers for the component-wise binary-operator overloads
(`add_sv_binop_components` / `add_svm_binop_components`).  The scalar
operation is `Option`-valued so that panicking operations (integer
division by zero) are representable; pure operations pass `some ∘ op`. -/

/-- `add_sv_binop_components`: the `(SV, scalar)`, `(scalar, SV)` and
`(SV, SV)` overloads.  The two broadcast overloads always return `Some`
in the source (panics only inside the map); the `(SV, SV)` overload
reports a shape mismatch as absent. -/
def addSVBinopComponents {T : Type} (cpSc : ConstParam T)
    (cpSV : ConstParam (ConstSVVal T)) (func : ConstEvalFunctionBuilder)
    (f : T → T → Option T) : ConstEvalFunctionBuilder :=
  (((func.add_overload_2 cpSV cpSc cpSV.into_const_base_val fun a b =>
      PRes.ofPanic (a.mapP fun v => f v b)).add_overload_2
    cpSc cpSV cpSV.into_const_base_val fun a b =>
      PRes.ofPanic (b.mapP fun v => f a v)).add_overload_2
    cpSV cpSV cpSV.into_const_base_val fun a b => a.zipMapP f b)

def add_i32_binop_components (func : ConstEvalFunctionBuilder)
    (f : Int32 → Int32 → Option Int32) : ConstEvalFunctionBuilder :=
  addSVBinopComponents cpInt cpIntSV func f

def add_u32_binop_components (func : ConstEvalFunctionBuilder)
    (f : UInt32 → UInt32 → Option UInt32) : ConstEvalFunctionBuilder :=
  addSVBinopComponents cpUInt cpUIntSV func f

/-- `add_svm_binop_components`: the SV overloads plus `(M, scalar)`,
`(scalar, M)` and `(M, M)`.  Note the `(scalar, M)` overload applies
`f(v, a)` — matrix element first — exactly as in the source. -/
def addSVMBinopComponents {T : Type} (cpSc : ConstParam T)
    (cpSV : ConstParam (ConstSVVal T)) (cpM : ConstParam (ConstMVal T))
    (func : ConstEvalFunctionBuilder) (f : T → T → Option T) :
    ConstEvalFunctionBuilder :=
  ((((addSVBinopComponents cpSc cpSV func f).add_overload_2
      cpM cpSc cpM.into_const_base_val fun a b =>
        PRes.ofPanic (a.mapP fun v => f v b)).add_overload_2
    cpSc cpM cpM.into_const_base_val fun a b =>
      PRes.ofPanic (b.mapP fun v => f v a)).add_overload_2
    cpM cpM cpM.into_const_base_val fun a b => a.zipMapP f b)

def add_f32_binop_components (func : ConstEvalFunctionBuilder)
    (f : F32 → F32 → Option F32) : ConstEvalFunctionBuilder :=
  addSVMBinopComponents cpF32 cpF32SV cpF32M func f

def add_f64_binop_components (func : ConstEvalFunctionBuilder)
    (f : F64 → F64 → Option F64) : ConstEvalFunctionBuilder :=
  addSVMBinopComponents cpF64 cpF64SV cpF64M func f

/-! Linear-algebra products backing the `Mult` overloads.  All float
payloads are rationals, so a single set of helpers serves `f32` and
`f64`. -/

def dot2 (a b : V2 Rat) : Rat := a.x * b.x + a.y * b.y

def dot3 (a b : V3 Rat) : Rat := a.x * b.x + a.y * b.y + a.z * b.z

def dot4 (a b : V4 Rat) : Rat := a.x * b.x + a.y * b.y + a.z * b.z + a.w * b.w

def v2smul (q : Rat) (v : V2 Rat) : V2 Rat := ⟨q * v.x, q * v.y⟩

def v3smul (q : Rat) (v : V3 Rat) : V3 Rat := ⟨q * v.x, q * v.y, q * v.z⟩

def v4smul (q : Rat) (v : V4 Rat) : V4 Rat := ⟨q * v.x, q * v.y, q * v.z, q * v.w⟩

def v2add (a b : V2 Rat) : V2 Rat := ⟨a.x + b.x, a.y + b.y⟩

def v3add (a b : V3 Rat) : V3 Rat := ⟨a.x + b.x, a.y + b.y, a.z + b.z⟩

def v4add (a b : V4 Rat) : V4 Rat := ⟨a.x + b.x, a.y + b.y, a.z + b.z, a.w + b.w⟩

/-- Row-vector times matrix, `(a.transpose() * b).transpose()` in the
source: component `j` is the dot product of `v` with column `j`. -/
def mulV2M2 (v : V2 Rat) (m : M2 Rat) : V2 Rat := ⟨dot2 v m.c0, dot2 v m.c1⟩

def mulV2M23 (v : V2 Rat) (m : M23 Rat) : V3 Rat :=
  ⟨dot2 v m.c0, dot2 v m.c1, dot2 v m.c2⟩

def mulV2M24 (v : V2 Rat) (m : M24 Rat) : V4 Rat :=
  ⟨dot2 v m.c0, dot2 v m.c1, dot2 v m.c2, dot2 v m.c3⟩

def mulV3M32 (v : V3 Rat) (m : M32 Rat) : V2 Rat := ⟨dot3 v m.c0, dot3 v m.c1⟩

def mulV3M3 (v : V3 Rat) (m : M3 Rat) : V3 Rat :=
  ⟨dot3 v m.c0, dot3 v m.c1, dot3 v m.c2⟩

def mulV3M34 (v : V3 Rat) (m : M34 Rat) : V4 Rat :=
  ⟨dot3 v m.c0, dot3 v m.c1, dot3 v m.c2, dot3 v m.c3⟩

def mulV4M42 (v : V4 Rat) (m : M42 Rat) : V2 Rat := ⟨dot4 v m.c0, dot4 v m.c1⟩

def mulV4M43 (v : V4 Rat) (m : M43 Rat) : V3 Rat :=
  ⟨dot4 v m.c0, dot4 v m.c1, dot4 v m.c2⟩

def mulV4M4 (v : V4 Rat) (m : M4 Rat) : V4 Rat :=
  ⟨dot4 v m.c0, dot4 v m.c1, dot4 v m.c2, dot4 v m.c3⟩

/-- Matrix times column vector: the linear combination of the columns. -/
def mulM2V2 (m : M2 Rat) (v : V2 Rat) : V2 Rat :=
  v2add (v2smul v.x m.c0) (v2smul v.y m.c1)

def mulM32V2 (m : M32 Rat) (v : V2 Rat) : V3 Rat :=
  v3add (v3smul v.x m.c0) (v3smul v.y m.c1)

def mulM42V2 (m : M42 Rat) (v : V2 Rat) : V4 Rat :=
  v4add (v4smul v.x m.c0) (v4smul v.y m.c1)

def mulM23V3 (m : M23 Rat) (v : V3 Rat) : V2 Rat :=
  v2add (v2add (v2smul v.x m.c0) (v2smul v.y m.c1)) (v2smul v.z m.c2)

def mulM3V3 (m : M3 Rat) (v : V3 Rat) : V3 Rat :=
  v3add (v3add (v3smul v.x m.c0) (v3smul v.y m.c1)) (v3smul v.z m.c2)

def mulM43V3 (m : M43 Rat) (v : V3 Rat) : V4 Rat :=
  v4add (v4add (v4smul v.x m.c0) (v4smul v.y m.c1)) (v4smul v.z m.c2)

def mulM24V4 (m : M24 Rat) (v : V4 Rat) : V2 Rat :=
  v2add (v2add (v2add (v2smul v.x m.c0) (v2smul v.y m.c1)) (v2smul v.z m.c2))
    (v2smul v.w m.c3)

def mulM34V4 (m : M34 Rat) (v : V4 Rat) : V3 Rat :=
  v3add (v3add (v3add (v3smul v.x m.c0) (v3smul v.y m.c1)) (v3smul v.z m.c2))
    (v3smul v.w m.c3)

def mulM4V4 (m : M4 Rat) (v : V4 Rat) : V4 Rat :=
  v4add (v4add (v4add (v4smul v.x m.c0) (v4smul v.y m.c1)) (v4smul v.z m.c2))
    (v4smul v.w m.c3)

/-! The builtin operator functions (`lazy_static` tables). -/

def OP_UNARY_ADD : ConstEvalFunction :=
  ((((ConstEvalFunctionBuilder.new.add_overload_1
    cpIntSV cpIntSV.into_const_base_val fun v => .present v).add_overload_1
    cpUIntSV cpUIntSV.into_const_base_val fun v => .present v).add_overload_1
    cpF32SVM cpF32SVM.into_const_base_val fun v => .present v).add_overload_1
    cpF64SVM cpF64SVM.into_const_base_val fun v => .present v).build

def OP_UNARY_MINUS : ConstEvalFunction :=
  ((((ConstEvalFunctionBuilder.new.add_overload_1
    cpIntSV cpIntSV.into_const_base_val fun v =>
      .present (v.map i32_wrapping_neg)).add_overload_1
    cpUIntSV cpUIntSV.into_const_base_val fun v =>
      .present (v.map u32_wrapping_neg)).add_overload_1
    cpF32SVM cpF32SVM.into_const_base_val fun v =>
      .present (v.map Neg.neg)).add_overload_1
    cpF64SVM cpF64SVM.into_const_base_val fun v =>
      .present (v.map Neg.neg)).build

def OP_UNARY_NOT : ConstEvalFunction :=
  (ConstEvalFunctionBuilder.new.add_overload_1
    cpBool cpBool.into_const_base_val fun v => .present (!v)).build

def OP_UNARY_COMPLEMENT : ConstEvalFunction :=
  ((ConstEvalFunctionBuilder.new.add_overload_1
    cpIntSV cpIntSV.into_const_base_val fun v =>
      .present (v.map i32_not)).add_overload_1
    cpUIntSV cpUIntSV.into_const_base_val fun v =>
      .present (v.map u32_not)).build

def OP_BINARY_OR : ConstEvalFunction :=
  (ConstEvalFunctionBuilder.new.add_overload_2
    cpBool cpBool cpBool.into_const_base_val fun a b => .present (a || b)).build

def OP_BINARY_XOR : ConstEvalFunction :=
  (ConstEvalFunctionBuilder.new.add_overload_2
    cpBool cpBool cpBool.into_const_base_val fun a b => .present (a != b)).build

def OP_BINARY_AND : ConstEvalFunction :=
  (ConstEvalFunctionBuilder.new.add_overload_2
    cpBool cpBool cpBool.into_const_base_val fun a b => .present (a && b)).build

def OP_BINARY_BIT_OR : ConstEvalFunction :=
  (add_u32_binop_components
    (add_i32_binop_components ConstEvalFunctionBuilder.new
      fun a b => some (Int.lor a b))
    fun a b => some (Nat.lor a b)).build

def OP_BINARY_BIT_XOR : ConstEvalFunction :=
  (add_u32_binop_components
    (add_i32_binop_components ConstEvalFunctionBuilder.new
      fun a b => some (Int.xor a b))
    fun a b => some (Nat.xor a b)).build

def OP_BINARY_BIT_AND : ConstEvalFunction :=
  (add_u32_binop_components
    (add_i32_binop_components ConstEvalFunctionBuilder.new
      fun a b => some (Int.land a b))
    fun a b => some (Nat.land a b)).build

/-- The equality reducer of the `OP_BINARY_EQUAL` overloads: component-wise
`==` folded with `and`; absent on a shape mismatch. -/
def eqFoldSV {T : Type} [DecidableEq T] (a b : ConstSVVal T) : PRes Bool :=
  match a.zipMap (fun x y => decide (x = y)) b with
  | some z => .present (z.fold true and)
  | none => .absent

def eqFoldSVM {T : Type} [DecidableEq T] (a b : ConstSVMVal T) : PRes Bool :=
  match a.zipMap (fun x y => decide (x = y)) b with
  | some z => .present (z.fold true and)
  | none => .absent

def OP_BINARY_EQUAL : ConstEvalFunction :=
  (((((ConstEvalFunctionBuilder.new.add_overload_2
    cpBoolSV cpBoolSV cpBool.into_const_base_val eqFoldSV).add_overload_2
    cpIntSV cpIntSV cpBool.into_const_base_val eqFoldSV).add_overload_2
    cpUIntSV cpUIntSV cpBool.into_const_base_val eqFoldSV).add_overload_2
    cpF32SVM cpF32SVM cpBool.into_const_base_val eqFoldSVM).add_overload_2
    cpF64SVM cpF64SVM cpBool.into_const_base_val eqFoldSVM).build

def OP_BINARY_LT : ConstEvalFunction :=
  ((((ConstEvalFunctionBuilder.new.add_overload_2
    cpInt cpInt cpBool.into_const_base_val fun a b =>
      .present (decide (a < b))).add_overload_2
    cpUInt cpUInt cpBool.into_const_base_val fun a b =>
      .present (decide (a < b))).add_overload_2
    cpF32 cpF32 cpBool.into_const_base_val fun a b =>
      .present (decide (a < b))).add_overload_2
    cpF64 cpF64 cpBool.into_const_base_val fun a b =>
      .present (decide (a < b))).build

def OP_BINARY_GT : ConstEvalFunction :=
  ((((ConstEvalFunctionBuilder.new.add_overload_2
    cpInt cpInt cpBool.into_const_base_val fun a b =>
      .present (decide (b < a))).add_overload_2
    cpUInt cpUInt cpBool.into_const_base_val fun a b =>
      .present (decide (b < a))).add_overload_2
    cpF32 cpF32 cpBool.into_const_base_val fun a b =>
      .present (decide (b < a))).add_overload_2
    cpF64 cpF64 cpBool.into_const_base_val fun a b =>
      .present (decide (b < a))).build

def OP_BINARY_LTE : ConstEvalFunction :=
  ((((ConstEvalFunctionBuilder.new.add_overload_2
    cpInt cpInt cpBool.into_const_base_val fun a b =>
      .present (decide (a ≤ b))).add_overload_2
    cpUInt cpUInt cpBool.into_const_base_val fun a b =>
      .present (decide (a ≤ b))).add_overload_2
    cpF32 cpF32 cpBool.into_const_base_val fun a b =>
      .present (decide (a ≤ b))).add_overload_2
    cpF64 cpF64 cpBool.into_const_base_val fun a b =>
      .present (decide (a ≤ b))).build

def OP_BINARY_GTE : ConstEvalFunction :=
  ((((ConstEvalFunctionBuilder.new.add_overload_2
    cpInt cpInt cpBool.into_const_base_val fun a b =>
      .present (decide (b ≤ a))).add_overload_2
    cpUInt cpUInt cpBool.into_const_base_val fun a b =>
      .present (decide (b ≤ a))).add_overload_2
    cpF32 cpF32 cpBool.into_const_base_val fun a b =>
      .present (decide (b ≤ a))).add_overload_2
    cpF64 cpF64 cpBool.into_const_base_val fun a b =>
      .present (decide (b ≤ a))).build

def OP_BINARY_LSHIFT : ConstEvalFunction :=
  ((((((((ConstEvalFunctionBuilder.new.add_overload_2
    cpIntSV cpInt cpIntSV.into_const_base_val fun a b =>
      .present (a.map fun v => i32_shl v (i32_shift_amount b))).add_overload_2
    cpIntSV cpUInt cpIntSV.into_const_base_val fun a b =>
      .present (a.map fun v => i32_shl v b)).add_overload_2
    cpIntSV cpIntSV cpIntSV.into_const_base_val fun a b =>
      PRes.ofOption (a.zipMap (fun x y => i32_shl x (i32_shift_amount y)) b)).add_overload_2
    cpIntSV cpUIntSV cpIntSV.into_const_base_val fun a b =>
      PRes.ofOption (a.zipMap (fun x y => i32_shl x y) b)).add_overload_2
    cpUIntSV cpInt cpUIntSV.into_const_base_val fun a b =>
      .present (a.map fun v => u32_shl v (i32_shift_amount b))).add_overload_2
    cpUIntSV cpUInt cpUIntSV.into_const_base_val fun a b =>
      .present (a.map fun v => u32_shl v b)).add_overload_2
    cpUIntSV cpIntSV cpUIntSV.into_const_base_val fun a b =>
      PRes.ofOption (a.zipMap (fun x y => u32_shl x (i32_shift_amount y)) b)).add_overload_2
    cpUIntSV cpUIntSV cpUIntSV.into_const_base_val fun a b =>
      PRes.ofOption (a.zipMap (fun x y => u32_shl x y) b)).build

def OP_BINARY_RSHIFT : ConstEvalFunction :=
  ((((((((ConstEvalFunctionBuilder.new.add_overload_2
    cpIntSV cpInt cpIntSV.into_const_base_val fun a b =>
      .present (a.map fun v => i32_shr v (i32_shift_amount b))).add_overload_2
    cpIntSV cpUInt cpIntSV.into_const_base_val fun a b =>
      .present (a.map fun v => i32_shr v b)).add_overload_2
    cpIntSV cpIntSV cpIntSV.into_const_base_val fun a b =>
      PRes.ofOption (a.zipMap (fun x y => i32_shr x (i32_shift_amount y)) b)).add_overload_2
    cpIntSV cpUIntSV cpIntSV.into_const_base_val fun a b =>
      PRes.ofOption (a.zipMap (fun x y => i32_shr x y) b)).add_overload_2
    cpUIntSV cpInt cpUIntSV.into_const_base_val fun a b =>
      .present (a.map fun v => u32_shr v (i32_shift_amount b))).add_overload_2
    cpUIntSV cpUInt cpUIntSV.into_const_base_val fun a b =>
      .present (a.map fun v => u32_shr v b)).add_overload_2
    cpUIntSV cpIntSV cpUIntSV.into_const_base_val fun a b =>
      PRes.ofOption (a.zipMap (fun x y => u32_shr x (i32_shift_amount y)) b)).add_overload_2
    cpUIntSV cpUIntSV cpUIntSV.into_const_base_val fun a b =>
      PRes.ofOption (a.zipMap (fun x y => u32_shr x y) b)).build

def OP_BINARY_ADD : ConstEvalFunction :=
  (add_f64_binop_components
    (add_f32_binop_components
      (add_u32_binop_components
        (add_i32_binop_components ConstEvalFunctionBuilder.new
          fun a b => some (i32_add a b))
        fun a b => some (u32_add a b))
      fun a b => some (a + b))
    fun a b => some (a + b)).build

def OP_BINARY_SUB : ConstEvalFunction :=
  (add_f64_binop_components
    (add_f32_binop_components
      (add_u32_binop_components
        (add_i32_binop_components ConstEvalFunctionBuilder.new
          fun a b => some (i32_sub a b))
        fun a b => some (u32_sub a b))
      fun a b => some (a - b))
    fun a b => some (a - b)).build

def OP_BINARY_MULT : ConstEvalFunction :=
  (((((((((((((((((((((((((((((((((((((
    addSVBinopComponents cpF64 cpF64SV
      (addSVBinopComponents cpF32 cpF32SV
        (add_u32_binop_components
          (add_i32_binop_components ConstEvalFunctionBuilder.new
            fun a b => some (i32_mul a b))
          fun a b => some (u32_mul a b))
        fun a b => some (a * b))
      fun a b => some (a * b)).add_overload_2
    cpF32V2 cpF32M2 cpF32V2.into_const_base_val fun a b =>
      .present (mulV2M2 a b)).add_overload_2
    cpF32V2 cpF32M23 cpF32V3.into_const_base_val fun a b =>
      .present (mulV2M23 a b)).add_overload_2
    cpF32V2 cpF32M24 cpF32V4.into_const_base_val fun a b =>
      .present (mulV2M24 a b)).add_overload_2
    cpF32V3 cpF32M32 cpF32V2.into_const_base_val fun a b =>
      .present (mulV3M32 a b)).add_overload_2
    cpF32V3 cpF32M3 cpF32V3.into_const_base_val fun a b =>
      .present (mulV3M3 a b)).add_overload_2
    cpF32V3 cpF32M34 cpF32V4.into_const_base_val fun a b =>
      .present (mulV3M34 a b)).add_overload_2
    cpF32V4 cpF32M42 cpF32V2.into_const_base_val fun a b =>
      .present (mulV4M42 a b)).add_overload_2
    cpF32V4 cpF32M43 cpF32V3.into_const_base_val fun a b =>
      .present (mulV4M43 a b)).add_overload_2
    cpF32V4 cpF32M4 cpF32V4.into_const_base_val fun a b =>
      .present (mulV4M4 a b)).add_overload_2
    cpF32M2 cpF32V2 cpF32V2.into_const_base_val fun a b =>
      .present (mulM2V2 a b)).add_overload_2
    cpF32M32 cpF32V2 cpF32V3.into_const_base_val fun a b =>
      .present (mulM32V2 a b)).add_overload_2
    cpF32M42 cpF32V2 cpF32V4.into_const_base_val fun a b =>
      .present (mulM42V2 a b)).add_overload_2
    cpF32M23 cpF32V3 cpF32V2.into_const_base_val fun a b =>
      .present (mulM23V3 a b)).add_overload_2
    cpF32M3 cpF32V3 cpF32V3.into_const_base_val fun a b =>
      .present (mulM3V3 a b)).add_overload_2
    cpF32M43 cpF32V3 cpF32V4.into_const_base_val fun a b =>
      .present (mulM43V3 a b)).add_overload_2
    cpF32M24 cpF32V4 cpF32V2.into_const_base_val fun a b =>
      .present (mulM24V4 a b)).add_overload_2
    cpF32M34 cpF32V4 cpF32V3.into_const_base_val fun a b =>
      .present (mulM34V4 a b)).add_overload_2
    cpF32M4 cpF32V4 cpF32V4.into_const_base_val fun a b =>
      .present (mulM4V4 a b)).add_overload_2
    cpF64V2 cpF64M2 cpF64V2.into_const_base_val fun a b =>
      .present (mulV2M2 a b)).add_overload_2
    cpF64V2 cpF64M23 cpF64V3.into_const_base_val fun a b =>
      .present (mulV2M23 a b)).add_overload_2
    cpF64V2 cpF64M24 cpF64V4.into_const_base_val fun a b =>
      .present (mulV2M24 a b)).add_overload_2
    cpF64V3 cpF64M32 cpF64V2.into_const_base_val fun a b =>
      .present (mulV3M32 a b)).add_overload_2
    cpF64V3 cpF64M3 cpF64V3.into_const_base_val fun a b =>
      .present (mulV3M3 a b)).add_overload_2
    cpF64V3 cpF64M34 cpF64V4.into_const_base_val fun a b =>
      .present (mulV3M34 a b)).add_overload_2
    cpF64V4 cpF64M42 cpF64V2.into_const_base_val fun a b =>
      .present (mulV4M42 a b)).add_overload_2
    cpF64V4 cpF64M43 cpF64V3.into_const_base_val fun a b =>
      .present (mulV4M43 a b)).add_overload_2
    cpF64V4 cpF64M4 cpF64V4.into_const_base_val fun a b =>
      .present (mulV4M4 a b)).add_overload_2
    cpF64M2 cpF64V2 cpF64V2.into_const_base_val fun a b =>
      .present (mulM2V2 a b)).add_overload_2
    cpF64M32 cpF64V2 cpF64V3.into_const_base_val fun a b =>
      .present (mulM32V2 a b)).add_overload_2
    cpF64M42 cpF64V2 cpF64V4.into_const_base_val fun a b =>
      .present (mulM42V2 a b)).add_overload_2
    cpF64M23 cpF64V3 cpF64V2.into_const_base_val fun a b =>
      .present (mulM23V3 a b)).add_overload_2
    cpF64M3 cpF64V3 cpF64V3.into_const_base_val fun a b =>
      .present (mulM3V3 a b)).add_overload_2
    cpF64M43 cpF64V3 cpF64V4.into_const_base_val fun a b =>
      .present (mulM43V3 a b)).add_overload_2
    cpF64M24 cpF64V4 cpF64V2.into_const_base_val fun a b =>
      .present (mulM24V4 a b)).add_overload_2
    cpF64M34 cpF64V4 cpF64V3.into_const_base_val fun a b =>
      .present (mulM34V4 a b)).add_overload_2
    cpF64M4 cpF64V4 cpF64V4.into_const_base_val fun a b =>
      .present (mulM4V4 a b)).build

def OP_BINARY_DIV : ConstEvalFunction :=
  (add_f64_binop_components
    (add_f32_binop_components
      (add_u32_binop_components
        (add_i32_binop_components ConstEvalFunctionBuilder.new i32_div)
        u32_div)
      fun a b => some (a / b))
    fun a b => some (a / b)).build

def OP_BINARY_MOD : ConstEvalFunction :=
  (add_u32_binop_components
    (add_i32_binop_components ConstEvalFunctionBuilder.new i32_mod)
    u32_mod).build

/-! Type constructors (`add_scalar_constructor`, `add_vec_constructor`,
`add_mat_constructor`) and the builtin function registry. -/

/-- Elements of one base value converted into the target scalar type, in
column-major order (one `ScalarIterWrapper` of the source). -/
def convertBase {T : Type} (froms : ScalarFroms T) : ConstBaseVal → List T
  | .Bool v => v.columnList.map froms.fromBool
  | .Int v => v.columnList.map froms.fromI32
  | .UInt v => v.columnList.map froms.fromU32
  | .Float v => v.columnList.map froms.fromF32
  | .Double v => v.columnList.map froms.fromF64

/-- The flattened converted element stream of a whole parameter list (the
source's `ValIterator`). -/
def convertAll {T : Type} (froms : ScalarFroms T) (params : List ConstBaseVal) :
    List T :=
  (params.map (convertBase froms)).flatten

/-- `add_scalar_constructor::<T>`: five typed overloads, one per source
base type, each with a `GenericSV` prototype shape, taking the first
element of the argument's column-major stream. -/
def addScalarConstructor {T : Type} (froms : ScalarFroms T)
    (wrapScalar : T → ConstBaseVal) (f : ConstEvalFunctionBuilder) :
    ConstEvalFunctionBuilder :=
  ((((f.add_overload_1 cpBoolSV wrapScalar fun v =>
      .present (froms.fromBool v.headElem)).add_overload_1
    cpIntSV wrapScalar fun v =>
      .present (froms.fromI32 v.headElem)).add_overload_1
    cpUIntSV wrapScalar fun v =>
      .present (froms.fromU32 v.headElem)).add_overload_1
    cpF32SV wrapScalar fun v =>
      .present (froms.fromF32 v.headElem)).add_overload_1
    cpF64SV wrapScalar fun v =>
      .present (froms.fromF64 v.headElem)

def broadcast2 {T : Type} (v : T) : ConstVVal T := .Vec2 ⟨v, v⟩

def broadcast3 {T : Type} (v : T) : ConstVVal T := .Vec3 ⟨v, v, v⟩

def broadcast4 {T : Type} (v : T) : ConstVVal T := .Vec4 ⟨v, v, v, v⟩

/-- `Vector2::from_iterator`: the first two elements of the stream (the
callers guard the length, so the `none` arm models the `nalgebra` panic
on a short iterator). -/
def vecFromList2 {T : Type} : List T → Option (ConstVVal T)
  | a :: b :: _ => some (.Vec2 ⟨a, b⟩)
  | _ => none

def vecFromList3 {T : Type} : List T → Option (ConstVVal T)
  | a :: b :: c :: _ => some (.Vec3 ⟨a, b, c⟩)
  | _ => none

def vecFromList4 {T : Type} : List T → Option (ConstVVal T)
  | a :: b :: c :: d :: _ => some (.Vec4 ⟨a, b, c, d⟩)
  | _ => none

/-- The count-and-flatten fallback of `add_vec_constructor`'s generic
closure. -/
def vecCtorCount {T : Type} (froms : ScalarFroms T) (n : Nat)
    (fromL : List T → Option (ConstVVal T)) (wrapV : ConstVVal T → ConstBaseVal)
    (params : List ConstBaseVal) : PRes ConstBaseVal :=
  let l := convertAll froms params
  if n ≤ l.length then
    match fromL l with
    | some v => .present (wrapV v)
    | none => .panicked
  else .absent

/-- `add_vec_constructor::<R, T>`: one generic overload. -/
def addVecConstructor {T : Type} (froms : ScalarFroms T) (n : Nat)
    (broadcast : T → ConstVVal T) (fromL : List T → Option (ConstVVal T))
    (wrapV : ConstVVal T → ConstBaseVal) (f : ConstEvalFunctionBuilder) :
    ConstEvalFunctionBuilder :=
  f.add_generic fun params =>
    match params with
    | [] => .absent
    | [p] =>
        if p.get_shape = .Scalar then
          match (convertAll froms [p]).head? with
          | some v => .present (wrapV (broadcast v))
          | none => .panicked
        else vecCtorCount froms n fromL wrapV params
    | _ => vecCtorCount froms n fromL wrapV params

/-! Matrix accessors used by the generic `copy_to_mat` overlay. -/

def V2.getD {T : Type} (v : V2 T) (i : Nat) (d : T) : T :=
  match i with
  | 0 => v.x
  | 1 => v.y
  | _ => d

def V3.getD {T : Type} (v : V3 T) (i : Nat) (d : T) : T :=
  match i with
  | 0 => v.x
  | 1 => v.y
  | 2 => v.z
  | _ => d

def V4.getD {T : Type} (v : V4 T) (i : Nat) (d : T) : T :=
  match i with
  | 0 => v.x
  | 1 => v.y
  | 2 => v.z
  | 3 => v.w
  | _ => d

/-- Element at (row, column) of a matrix value, with a default outside the
shape. -/
def ConstMVal.getD {T : Type} (m : ConstMVal T) (r c : Nat) (d : T) : T :=
  match m with
  | .Mat2 m => match c with
    | 0 => m.c0.getD r d
    | 1 => m.c1.getD r d
    | _ => d
  | .Mat23 m => match c with
    | 0 => m.c0.getD r d
    | 1 => m.c1.getD r d
    | 2 => m.c2.getD r d
    | _ => d
  | .Mat24 m => match c with
    | 0 => m.c0.getD r d
    | 1 => m.c1.getD r d
    | 2 => m.c2.getD r d
    | 3 => m.c3.getD r d
    | _ => d
  | .Mat32 m => match c with
    | 0 => m.c0.getD r d
    | 1 => m.c1.getD r d
    | _ => d
  | .Mat3 m => match c with
    | 0 => m.c0.getD r d
    | 1 => m.c1.getD r d
    | 2 => m.c2.getD r d
    | _ => d
  | .Mat34 m => match c with
    | 0 => m.c0.getD r d
    | 1 => m.c1.getD r d
    | 2 => m.c2.getD r d
    | 3 => m.c3.getD r d
    | _ => d
  | .Mat42 m => match c with
    | 0 => m.c0.getD r d
    | 1 => m.c1.getD r d
    | _ => d
  | .Mat43 m => match c with
    | 0 => m.c0.getD r d
    | 1 => m.c1.getD r d
    | 2 => m.c2.getD r d
    | _ => d
  | .Mat4 m => match c with
    | 0 => m.c0.getD r d
    | 1 => m.c1.getD r d
    | 2 => m.c2.getD r d
    | 3 => m.c3.getD r d
    | _ => d

def ConstMVal.rowsOf {T : Type} : ConstMVal T → Nat
  | .Mat2 _ | .Mat23 _ | .Mat24 _ => 2
  | .Mat32 _ | .Mat3 _ | .Mat34 _ => 3
  | .Mat42 _ | .Mat43 _ | .Mat4 _ => 3 + 1

def ConstMVal.colsOf {T : Type} : ConstMVal T → Nat
  | .Mat2 _ | .Mat32 _ | .Mat42 _ => 2
  | .Mat23 _ | .Mat3 _ | .Mat43 _ => 3
  | .Mat24 _ | .Mat34 _ | .Mat4 _ => 3 + 1

/-! Shape-specific builders for the nine matrix constructors.  All
registered matrix constructors use the `f32` element type — including the
`dmat*` names — mirroring the `register_constructor_const_functions`
instantiations of the source. -/

/-- Per-shape operations for one `add_mat_constructor::<R, C, f32>`
instantiation. -/
structure MatCtor where
  rows : Nat
  cols : Nat
  ofFn : (Nat → Nat → F32) → ConstMVal F32
  fromL : List F32 → Option (ConstMVal F32)

def mat2Ctor : MatCtor where
  rows := 2
  cols := 2
  ofFn := fun f => .Mat2 ⟨⟨f 0 0, f 1 0⟩, ⟨f 0 1, f 1 1⟩⟩
  fromL := fun l =>
    match l with
    | a :: b :: c :: d :: _ => some (.Mat2 ⟨⟨a, b⟩, ⟨c, d⟩⟩)
    | _ => none

def mat23Ctor : MatCtor where
  rows := 2
  cols := 3
  ofFn := fun f => .Mat23 ⟨⟨f 0 0, f 1 0⟩, ⟨f 0 1, f 1 1⟩, ⟨f 0 2, f 1 2⟩⟩
  fromL := fun l =>
    match l with
    | a :: b :: c :: d :: e :: g :: _ => some (.Mat23 ⟨⟨a, b⟩, ⟨c, d⟩, ⟨e, g⟩⟩)
    | _ => none

def mat24Ctor : MatCtor where
  rows := 2
  cols := 4
  ofFn := fun f =>
    .Mat24 ⟨⟨f 0 0, f 1 0⟩, ⟨f 0 1, f 1 1⟩, ⟨f 0 2, f 1 2⟩, ⟨f 0 3, f 1 3⟩⟩
  fromL := fun l =>
    match l with
    | a :: b :: c :: d :: e :: g :: h :: i :: _ =>
        some (.Mat24 ⟨⟨a, b⟩, ⟨c, d⟩, ⟨e, g⟩, ⟨h, i⟩⟩)
    | _ => none

def mat32Ctor : MatCtor where
  rows := 3
  cols := 2
  ofFn := fun f => .Mat32 ⟨⟨f 0 0, f 1 0, f 2 0⟩, ⟨f 0 1, f 1 1, f 2 1⟩⟩
  fromL := fun l =>
    match l with
    | a :: b :: c :: d :: e :: g :: _ => some (.Mat32 ⟨⟨a, b, c⟩, ⟨d, e, g⟩⟩)
    | _ => none

def mat3Ctor : MatCtor where
  rows := 3
  cols := 3
  ofFn := fun f =>
    .Mat3 ⟨⟨f 0 0, f 1 0, f 2 0⟩, ⟨f 0 1, f 1 1, f 2 1⟩, ⟨f 0 2, f 1 2, f 2 2⟩⟩
  fromL := fun l =>
    match l with
    | a :: b :: c :: d :: e :: g :: h :: i :: j :: _ =>
        some (.Mat3 ⟨⟨a, b, c⟩, ⟨d, e, g⟩, ⟨h, i, j⟩⟩)
    | _ => none

def mat34Ctor : MatCtor where
  rows := 3
  cols := 4
  ofFn := fun f =>
    .Mat34 ⟨⟨f 0 0, f 1 0, f 2 0⟩, ⟨f 0 1, f 1 1, f 2 1⟩, ⟨f 0 2, f 1 2, f 2 2⟩,
      ⟨f 0 3, f 1 3, f 2 3⟩⟩
  fromL := fun l =>
    match l with
    | a :: b :: c :: d :: e :: g :: h :: i :: j :: k :: p :: q :: _ =>
        some (.Mat34 ⟨⟨a, b, c⟩, ⟨d, e, g⟩, ⟨h, i, j⟩, ⟨k, p, q⟩⟩)
    | _ => none

def mat42Ctor : MatCtor where
  rows := 4
  cols := 2
  ofFn := fun f =>
    .Mat42 ⟨⟨f 0 0, f 1 0, f 2 0, f 3 0⟩, ⟨f 0 1, f 1 1, f 2 1, f 3 1⟩⟩
  fromL := fun l =>
    match l with
    | a :: b :: c :: d :: e :: g :: h :: i :: _ =>
        some (.Mat42 ⟨⟨a, b, c, d⟩, ⟨e, g, h, i⟩⟩)
    | _ => none

def mat43Ctor : MatCtor where
  rows := 4
  cols := 3
  ofFn := fun f =>
    .Mat43 ⟨⟨f 0 0, f 1 0, f 2 0, f 3 0⟩, ⟨f 0 1, f 1 1, f 2 1, f 3 1⟩,
      ⟨f 0 2, f 1 2, f 2 2, f 3 2⟩⟩
  fromL := fun l =>
    match l with
    | a :: b :: c :: d :: e :: g :: h :: i :: j :: k :: p :: q :: _ =>
        some (.Mat43 ⟨⟨a, b, c, d⟩, ⟨e, g, h, i⟩, ⟨j, k, p, q⟩⟩)
    | _ => none

def mat4Ctor : MatCtor where
  rows := 4
  cols := 4
  ofFn := fun f =>
    .Mat4 ⟨⟨f 0 0, f 1 0, f 2 0, f 3 0⟩, ⟨f 0 1, f 1 1, f 2 1, f 3 1⟩,
      ⟨f 0 2, f 1 2, f 2 2, f 3 2⟩, ⟨f 0 3, f 1 3, f 2 3, f 3 3⟩⟩
  fromL := fun l =>
    match l with
    | a :: b :: c :: d :: e :: g :: h :: i :: j :: k :: p :: q :: r :: s :: t :: u :: _ =>
        some (.Mat4 ⟨⟨a, b, c, d⟩, ⟨e, g, h, i⟩, ⟨j, k, p, q⟩, ⟨r, s, t, u⟩⟩)
    | _ => none

def wrapMF32 (m : ConstMVal F32) : ConstBaseVal := .Float (.Matrix m)

/-- The single-matrix-argument conversion of `add_mat_constructor` (only
float and double matrices exist). -/
def matConvertedF32 : ConstBaseVal → Option (ConstMVal F32)
  | .Float (.Matrix v) => some (v.map fromsF32.fromF32)
  | .Double (.Matrix v) => some (v.map fromsF32.fromF64)
  | _ => none

/-- The count-and-flatten fallback of `add_mat_constructor`'s generic
closure. -/
def matCtorCount (ctor : MatCtor) (params : List ConstBaseVal) :
    PRes ConstBaseVal :=
  let l := convertAll fromsF32 params
  if ctor.rows * ctor.cols ≤ l.length then
    match ctor.fromL l with
    | some m => .present (wrapMF32 m)
    | none => .panicked
  else .absent

/-- `add_mat_constructor::<R, C, f32>`: one generic overload.  A single
scalar produces the diagonal matrix; a single matrix produces the
identity overlaid with the source's top-left submatrix; otherwise the
flattened element stream fills the matrix when long enough. -/
def addMatConstructor (ctor : MatCtor) (f : ConstEvalFunctionBuilder) :
    ConstEvalFunctionBuilder :=
  f.add_generic fun params =>
    match params with
    | [] => .absent
    | [p] =>
        if p.get_shape = .Scalar then
          match (convertAll fromsF32 [p]).head? with
          | some v => .present (wrapMF32 (ctor.ofFn fun r c => if r = c then v else 0))
          | none => .panicked
        else
          match matConvertedF32 p with
          | some conv =>
              .present (wrapMF32 (ctor.ofFn fun r c =>
                if r < conv.rowsOf ∧ c < conv.colsOf then conv.getD r c 0
                else if r = c then 1 else 0))
          | none => matCtorCount ctor params
    | _ => matCtorCount ctor params

/-- All type constructors, in registration order
(`register_constructor_const_functions`).  Note that every `dmat*` name is
registered with the `f32` instantiation, exactly as the source does. -/
def register_constructor_list : List (String × ConstEvalFunction) :=
  [("bool", (addScalarConstructor fromsBool (fun b => .Bool (.Scalar b))
      ConstEvalFunctionBuilder.new).build),
   ("int", (addScalarConstructor fromsI32 (fun a => .Int (.Scalar a))
      ConstEvalFunctionBuilder.new).build),
   ("uint", (addScalarConstructor fromsU32 (fun a => .UInt (.Scalar a))
      ConstEvalFunctionBuilder.new).build),
   ("float", (addScalarConstructor fromsF32 (fun a => .Float (.Scalar a))
      ConstEvalFunctionBuilder.new).build),
   ("double", (addScalarConstructor fromsF64 (fun a => .Double (.Scalar a))
      ConstEvalFunctionBuilder.new).build),
   ("bvec2", (addVecConstructor fromsBool 2 broadcast2 vecFromList2
      (fun v => .Bool (.Vector v)) ConstEvalFunctionBuilder.new).build),
   ("ivec2", (addVecConstructor fromsI32 2 broadcast2 vecFromList2
      (fun v => .Int (.Vector v)) ConstEvalFunctionBuilder.new).build),
   ("uvec2", (addVecConstructor fromsU32 2 broadcast2 vecFromList2
      (fun v => .UInt (.Vector v)) ConstEvalFunctionBuilder.new).build),
   ("vec2", (addVecConstructor fromsF32 2 broadcast2 vecFromList2
      (fun v => .Float (.Vector v)) ConstEvalFunctionBuilder.new).build),
   ("dvec2", (addVecConstructor fromsF64 2 broadcast2 vecFromList2
      (fun v => .Double (.Vector v)) ConstEvalFunctionBuilder.new).build),
   ("bvec3", (addVecConstructor fromsBool 3 broadcast3 vecFromList3
      (fun v => .Bool (.Vector v)) ConstEvalFunctionBuilder.new).build),
   ("ivec3", (addVecConstructor fromsI32 3 broadcast3 vecFromList3
      (fun v => .Int (.Vector v)) ConstEvalFunctionBuilder.new).build),
   ("uvec3", (addVecConstructor fromsU32 3 broadcast3 vecFromList3
      (fun v => .UInt (.Vector v)) ConstEvalFunctionBuilder.new).build),
   ("vec3", (addVecConstructor fromsF32 3 broadcast3 vecFromList3
      (fun v => .Float (.Vector v)) ConstEvalFunctionBuilder.new).build),
   ("dvec3", (addVecConstructor fromsF64 3 broadcast3 vecFromList3
      (fun v => .Double (.Vector v)) ConstEvalFunctionBuilder.new).build),
   ("bvec4", (addVecConstructor fromsBool 4 broadcast4 vecFromList4
      (fun v => .Bool (.Vector v)) ConstEvalFunctionBuilder.new).build),
   ("ivec4", (addVecConstructor fromsI32 4 broadcast4 vecFromList4
      (fun v => .Int (.Vector v)) ConstEvalFunctionBuilder.new).build),
   ("uvec4", (addVecConstructor fromsU32 4 broadcast4 vecFromList4
      (fun v => .UInt (.Vector v)) ConstEvalFunctionBuilder.new).build),
   ("vec4", (addVecConstructor fromsF32 4 broadcast4 vecFromList4
      (fun v => .Float (.Vector v)) ConstEvalFunctionBuilder.new).build),
   ("dvec4", (addVecConstructor fromsF64 4 broadcast4 vecFromList4
      (fun v => .Double (.Vector v)) ConstEvalFunctionBuilder.new).build),
   ("mat2", (addMatConstructor mat2Ctor ConstEvalFunctionBuilder.new).build),
   ("mat23", (addMatConstructor mat23Ctor ConstEvalFunctionBuilder.new).build),
   ("mat24", (addMatConstructor mat24Ctor ConstEvalFunctionBuilder.new).build),
   ("mat32", (addMatConstructor mat32Ctor ConstEvalFunctionBuilder.new).build),
   ("mat3", (addMatConstructor mat3Ctor ConstEvalFunctionBuilder.new).build),
   ("mat34", (addMatConstructor mat34Ctor ConstEvalFunctionBuilder.new).build),
   ("mat42", (addMatConstructor mat42Ctor ConstEvalFunctionBuilder.new).build),
   ("mat43", (addMatConstructor mat43Ctor ConstEvalFunctionBuilder.new).build),
   ("mat4", (addMatConstructor mat4Ctor ConstEvalFunctionBuilder.new).build),
   ("dmat2", (addMatConstructor mat2Ctor ConstEvalFunctionBuilder.new).build),
   ("dmat23", (addMatConstructor mat23Ctor ConstEvalFunctionBuilder.new).build),
   ("dmat24", (addMatConstructor mat24Ctor ConstEvalFunctionBuilder.new).build),
   ("dmat32", (addMatConstructor mat32Ctor ConstEvalFunctionBuilder.new).build),
   ("dmat3", (addMatConstructor mat3Ctor ConstEvalFunctionBuilder.new).build),
   ("dmat34", (addMatConstructor mat34Ctor ConstEvalFunctionBuilder.new).build),
   ("dmat42", (addMatConstructor mat42Ctor ConstEvalFunctionBuilder.new).build),
   ("dmat43", (addMatConstructor mat43Ctor ConstEvalFunctionBuilder.new).build),
   ("dmat4", (addMatConstructor mat4Ctor ConstEvalFunctionBuilder.new).build)]

/-- The builtin function lookup (`BUILTIN_CONST_FUNCTIONS` as a
`ConstEvalFunctionLookup`): name-keyed lookup over the registration
list. -/
def BUILTIN_CONST_FUNCTIONS (ident : String) : Option ConstEvalFunction :=
  register_constructor_list.lookup ident

/-! The propagator (`const_propagate_expr`). -/

/-- A `ConstLookup` implementation is its `lookup_const` method. -/
abbrev ConstLookupFn := String → Option ConstVal

/-- A `ConstEvalFunctionLookup` implementation is its `lookup` method. -/
abbrev FnLookupFn := String → Option ConstEvalFunction

/-- Outcome of propagating one expression:
`Result<ConstValOrExpr, ConstEvalError>` plus the panic outcome. -/
inductive PROut where
  | panicked
  | error (err : ConstEvalError)
  | ok (v : ConstValOrExpr)

/-- Outcome of propagating an argument list (the short-circuiting
`collect::<Result<Vec<_>, _>>`). -/
inductive PROutList where
  | panicked
  | error (err : ConstEvalError)
  | ok (vs : List ConstValOrExpr)

/-- Maps an operator-table result into the propagator outcome: a present
value is a constant, an absent value is the supplied error, a panic
propagates. -/
def tableResult (r : PRes ConstBaseVal) (err : ConstEvalError) : PROut :=
  match r with
  | .present v => .ok (.Const (.Base v))
  | .absent => .error err
  | .panicked => .panicked

/-- The `NonEqual` special case: evaluate `OP_BINARY_EQUAL`, then negate.
The `expect` on the scalar-bool extraction is a panic when the equality
table returns a non-bool (it never does). -/
def nonEqualResult (r : PRes ConstBaseVal) (err : ConstEvalError) : PROut :=
  match r with
  | .present (.Bool (.Scalar bv)) => .ok (.Const (.Base (.Bool (.Scalar (!bv)))))
  | .present _ => .panicked
  | .absent => .error err
  | .panicked => .panicked

/-- Rebuilds a binary node from two propagated halves; converting a
constant array or struct back into an expression panics. -/
def rebuildBinary (op : BinaryOp) (a b : ConstValOrExpr) : PROut :=
  match a.toExpr with
  | none => .panicked
  | some ae =>
      match b.toExpr with
      | none => .panicked
      | some be => .ok (.Expr (.Binary op ae be))

/-- Rebuilds a ternary node whose condition stayed an expression from the
two propagated branch outcomes, in source order: errors of the first
branch win, then conversions of each branch back to expressions. -/
def rebuildTernary (e : Expr) (rb rc : PROut) : PROut :=
  match rb with
  | .panicked => .panicked
  | .error err => .error err
  | .ok bv =>
      match rc with
      | .panicked => .panicked
      | .error err => .error err
      | .ok cv =>
          match bv.toExpr with
          | none => .panicked
          | some be =>
              match cv.toExpr with
              | none => .panicked
              | some ce => .ok (.Expr (.Ternary e be ce))

/-- The `ret` closure of the `FunCall` branch for an identifier callee:
rebuild the call from the propagated parameters. -/
def rebuildCallI (ident : String) (ps : List ConstValOrExpr) : PROut :=
  match ps.mapM ConstValOrExpr.toExpr with
  | some es => .ok (.Expr (.FunCall ident es))
  | none => .panicked

/-- The `ret` closure for an expression callee. -/
def rebuildCallE (callee : Expr) (ps : List ConstValOrExpr) : PROut :=
  match ps.mapM ConstValOrExpr.toExpr with
  | some es => .ok (.Expr (.FunCallE callee es))
  | none => .panicked

/-- Dispatch of a constant binary operation to its table
(`match op` in the `Binary` arm); `NonEqual` routes through the equality
table and negates. -/
def binaryDispatch (op : BinaryOp) (a b : ConstBaseVal) (err : ConstEvalError) :
    PROut :=
  match op with
  | .Or => tableResult (OP_BINARY_OR.eval [a, b]) err
  | .Xor => tableResult (OP_BINARY_XOR.eval [a, b]) err
  | .And => tableResult (OP_BINARY_AND.eval [a, b]) err
  | .BitOr => tableResult (OP_BINARY_BIT_OR.eval [a, b]) err
  | .BitXor => tableResult (OP_BINARY_BIT_XOR.eval [a, b]) err
  | .BitAnd => tableResult (OP_BINARY_BIT_AND.eval [a, b]) err
  | .Equal => tableResult (OP_BINARY_EQUAL.eval [a, b]) err
  | .NonEqual => nonEqualResult (OP_BINARY_EQUAL.eval [a, b]) err
  | .LT => tableResult (OP_BINARY_LT.eval [a, b]) err
  | .GT => tableResult (OP_BINARY_GT.eval [a, b]) err
  | .LTE => tableResult (OP_BINARY_LTE.eval [a, b]) err
  | .GTE => tableResult (OP_BINARY_GTE.eval [a, b]) err
  | .LShift => tableResult (OP_BINARY_LSHIFT.eval [a, b]) err
  | .RShift => tableResult (OP_BINARY_RSHIFT.eval [a, b]) err
  | .Add => tableResult (OP_BINARY_ADD.eval [a, b]) err
  | .Sub => tableResult (OP_BINARY_SUB.eval [a, b]) err
  | .Mult => tableResult (OP_BINARY_MULT.eval [a, b]) err
  | .Div => tableResult (OP_BINARY_DIV.eval [a, b]) err
  | .Mod => tableResult (OP_BINARY_MOD.eval [a, b]) err

/-- Dispatch of a constant unary operation (`match op` in the `Unary`
arm): increment and decrement need an l-value, the rest route to their
tables. -/
def unaryDispatch (op : UnaryOp) (a : ConstBaseVal) (err : ConstEvalError) :
    PROut :=
  match op with
  | .Inc => .error (.UnaryOpExpectedLValue .Inc)
  | .Dec => .error (.UnaryOpExpectedLValue .Dec)
  | .Add => tableResult (OP_UNARY_ADD.eval [a]) err
  | .Minus => tableResult (OP_UNARY_MINUS.eval [a]) err
  | .Not => tableResult (OP_UNARY_NOT.eval [a]) err
  | .Complement => tableResult (OP_UNARY_COMPLEMENT.eval [a]) err

mutual

/-- Propagates const values in an expression, producing either a new
expression or a constant value (`const_propagate_expr`).  Each arm is a
direct transcription of the source `match`; `todo!()` arms (`Bracket`,
array member access) are the panic outcome. -/
def const_propagate_expr (expr : Expr) (cl : ConstLookupFn) (fl : FnLookupFn) :
    PROut :=
  match expr with
  | .Variable ident =>
      match cl ident with
      | some v => .ok (.Const v)
      | none => .ok (.Expr (.Variable ident))
  | .IntConst v => .ok (.Const (.Base (.Int (.Scalar v))))
  | .UIntConst v => .ok (.Const (.Base (.UInt (.Scalar v))))
  | .BoolConst v => .ok (.Const (.Base (.Bool (.Scalar v))))
  | .FloatConst v => .ok (.Const (.Base (.Float (.Scalar v))))
  | .DoubleConst v => .ok (.Const (.Base (.Double (.Scalar v))))
  | .Unary op a =>
      match const_propagate_expr a cl fl with
      | .panicked => .panicked
      | .error err => .error err
      | .ok (.Expr e) => .ok (.Expr (.Unary op e))
      | .ok (.Const v) =>
          match v.try_into_base with
          | none => .error (.IllegalUnaryOperand op v.type_specifier)
          | some a => unaryDispatch op a (.IllegalUnaryOperand op v.type_specifier)
  | .Binary op a b =>
      match const_propagate_expr a cl fl with
      | .panicked => .panicked
      | .error err => .error err
      | .ok ra =>
          match const_propagate_expr b cl fl with
          | .panicked => .panicked
          | .error err => .error err
          | .ok rb =>
              match ra, rb with
              | .Const va, .Const vb =>
                  match va.try_into_base with
                  | none =>
                      .error (.IllegalBinaryOperand op va.type_specifier vb.type_specifier)
                  | some ba =>
                      match vb.try_into_base with
                      | none =>
                          .error
                            (.IllegalBinaryOperand op va.type_specifier vb.type_specifier)
                      | some bb =>
                          binaryDispatch op ba bb
                            (.IllegalBinaryOperand op va.type_specifier vb.type_specifier)
              | ra, rb => rebuildBinary op ra rb
  | .Ternary a b c =>
      match const_propagate_expr a cl fl with
      | .panicked => .panicked
      | .error err => .error err
      | .ok (.Const (.Base (.Bool (.Scalar v)))) =>
          if v then const_propagate_expr b cl fl else const_propagate_expr c cl fl
      | .ok (.Const _) => .error .TernaryExpectedScalarBool
      | .ok (.Expr e) =>
          rebuildTernary e (const_propagate_expr b cl fl) (const_propagate_expr c cl fl)
  | .Assignment a op b =>
      match const_propagate_expr a cl fl with
      | .panicked => .panicked
      | .error err => .error err
      | .ok (.Const _) => .error .AssignmentExpectedLValue
      | .ok (.Expr ae) =>
          match const_propagate_expr b cl fl with
          | .panicked => .panicked
          | .error err => .error err
          | .ok rb =>
              match rb.toExpr with
              | none => .panicked
              | some be => .ok (.Expr (.Assignment ae op be))
  | .Bracket _ _ => .panicked
  | .FunCall ident args =>
      match const_propagate_args args cl fl with
      | .panicked => .panicked
      | .error err => .error err
      | .ok params =>
          match params.mapM (fun v =>
            match v with
            | ConstValOrExpr.Const (.Base b) => some b
            | _ => none) with
          | none => rebuildCallI ident params
          | some refs =>
              match fl ident with
              | none => rebuildCallI ident params
              | some func =>
                  match func.eval refs with
                  | .present v => .ok (.Const (.Base v))
                  | .absent => .error .NoMatchingFunctionOverload
                  | .panicked => .panicked
  | .FunCallE callee args =>
      match const_propagate_args args cl fl with
      | .panicked => .panicked
      | .error err => .error err
      | .ok params => rebuildCallE callee params
  | .Dot a ident =>
      match const_propagate_expr a cl fl with
      | .panicked => .panicked
      | .error err => .error err
      | .ok (.Expr e) => .ok (.Expr (.Dot e ident))
      | .ok (.Const (.Struct str)) =>
          match ConstStruct.lookup_const str ident with
          | some v => .ok (.Const v)
          | none => .error (.UnknownStructureMember ident)
      | .ok (.Const (.Array _)) => .panicked
      | .ok (.Const _) => .error .DotStructureRequired
  | .PostInc a =>
      match const_propagate_expr a cl fl with
      | .panicked => .panicked
      | .error err => .error err
      | .ok (.Const _) => .error .PostOpExpectedLValue
      | .ok (.Expr e) => .ok (.Expr (.PostInc e))
  | .PostDec a =>
      match const_propagate_expr a cl fl with
      | .panicked => .panicked
      | .error err => .error err
      | .ok (.Const _) => .error .PostOpExpectedLValue
      | .ok (.Expr e) => .ok (.Expr (.PostDec e))
  | .Comma a b =>
      match const_propagate_expr a cl fl with
      | .panicked => .panicked
      | .error err => .error err
      | .ok ra =>
          match const_propagate_expr b cl fl with
          | .panicked => .panicked
          | .error err => .error err
          | .ok rb =>
              match ra.toExpr with
              | none => .panicked
              | some ae =>
                  match rb.toExpr with
                  | none => .panicked
                  | some be => .ok (.Expr (.Comma ae be))
termination_by sizeOf expr

/-- Propagates a call's argument list left to right, stopping at the
first error or panic (the `collect::<Result<..>>` of the source). -/
def const_propagate_args (es : List Expr) (cl : ConstLookupFn) (fl : FnLookupFn) :
    PROutList :=
  match es with
  | [] => .ok []
  | e :: rest =>
      match const_propagate_expr e cl fl with
      | .panicked => .panicked
      | .error err => .error err
      | .ok v =>
          match const_propagate_args rest cl fl with
          | .panicked => .panicked
          | .error err => .error err
          | .ok vs => .ok (v :: vs)
termination_by sizeOf es

end

/-! Order-theoretic facts about the comparators, feeding the dispatcher
claims. -/

theorem cmpNat_swap (a b : Nat) : cmpNat a b = (cmpNat b a).swap := by
  unfold cmpNat
  rcases Nat.lt_trichotomy a b with h | h | h
  · have h2 : ¬b < a := by omega
    simp only [if_pos h, if_neg h2]
    rfl
  · have h1 : ¬a < b := by omega
    have h2 : ¬b < a := by omega
    simp only [if_neg h1, if_neg h2]
    rfl
  · have h1 : ¬a < b := by omega
    simp only [if_pos h, if_neg h1]
    rfl

theorem cmpNat_self (a : Nat) : cmpNat a a = .eq := by
  simp [cmpNat]

theorem cmpNat_eq_iff (a b : Nat) : cmpNat a b = .eq ↔ a = b := by
  unfold cmpNat
  rcases Nat.lt_trichotomy a b with h | h | h
  · simp only [if_pos h]
    exact ⟨fun hc => Ordering.noConfusion hc, fun hc => by omega⟩
  · have h1 : ¬a < b := by omega
    have h2 : ¬b < a := by omega
    simp only [if_neg h1, if_neg h2]
    exact ⟨fun _ => h, fun _ => by trivial⟩
  · have h1 : ¬a < b := by omega
    simp only [if_neg h1, if_pos h]
    exact ⟨fun hc => Ordering.noConfusion hc, fun hc => by omega⟩

theorem cmpNat_ne_gt_iff (a b : Nat) : ¬cmpNat a b = .gt ↔ a ≤ b := by
  unfold cmpNat
  rcases Nat.lt_trichotomy a b with h | h | h
  · simp only [if_pos h]
    exact ⟨fun _ => by omega, fun _ hc => Ordering.noConfusion hc⟩
  · have h1 : ¬a < b := by omega
    have h2 : ¬b < a := by omega
    simp only [if_neg h1, if_neg h2]
    exact ⟨fun _ => by omega, fun _ hc => Ordering.noConfusion hc⟩
  · have h1 : ¬a < b := by omega
    simp only [if_neg h1, if_pos h]
    exact ⟨fun hn => absurd (by trivial) hn, fun hle => absurd hle (by omega)⟩

theorem cmpNat_lt_iff (a b : Nat) : cmpNat a b = .lt ↔ a < b := by
  unfold cmpNat
  rcases Nat.lt_trichotomy a b with h | h | h
  · simp only [if_pos h]
    exact ⟨fun _ => h, fun _ => by trivial⟩
  · have h1 : ¬a < b := by omega
    have h2 : ¬b < a := by omega
    simp only [if_neg h1, if_neg h2]
    exact ⟨fun hc => Ordering.noConfusion hc, fun hc => by omega⟩
  · have h1 : ¬a < b := by omega
    simp only [if_neg h1, if_pos h]
    exact ⟨fun hc => Ordering.noConfusion hc, fun hc => by omega⟩

theorem cmpNat_gt_iff (a b : Nat) : cmpNat a b = .gt ↔ b < a := by
  unfold cmpNat
  rcases Nat.lt_trichotomy a b with h | h | h
  · simp only [if_pos h]
    exact ⟨fun hc => Ordering.noConfusion hc, fun hc => by omega⟩
  · have h1 : ¬a < b := by omega
    have h2 : ¬b < a := by omega
    simp only [if_neg h1, if_neg h2]
    exact ⟨fun hc => Ordering.noConfusion hc, fun hc => by omega⟩
  · have h1 : ¬a < b := by omega
    simp only [if_neg h1, if_pos h]
    exact ⟨fun _ => h, fun _ => by trivial⟩

/-- Numeric rank realizing `ParameterType.cast_cmp` as a linear-order
comparison: shape first (enum order), base type second (enum order). -/
def ptRank (a : ParameterType) : Nat := a.shape.toIdx * 5 + a.base_type.toIdx

theorem lexRank_cmp (s1 b1 s2 b2 : Nat) (hb1 : b1 < 5) (hb2 : b2 < 5) :
    cmpNat (s1 * 5 + b1) (s2 * 5 + b2) =
      if cmpNat s1 s2 = .eq then cmpNat b1 b2 else cmpNat s1 s2 := by
  rcases Nat.lt_trichotomy s1 s2 with h | h | h
  · rw [if_neg (fun hc => by have := (cmpNat_eq_iff s1 s2).mp hc; omega)]
    rw [(cmpNat_lt_iff _ _).mpr h, (cmpNat_lt_iff _ _).mpr (by omega)]
  · subst h
    rw [if_pos (cmpNat_self s1)]
    rcases Nat.lt_trichotomy b1 b2 with hb | hb | hb
    · rw [(cmpNat_lt_iff _ _).mpr hb, (cmpNat_lt_iff _ _).mpr (by omega)]
    · subst hb
      rw [cmpNat_self, cmpNat_self]
    · rw [(cmpNat_gt_iff _ _).mpr hb, (cmpNat_gt_iff _ _).mpr (by omega)]
  · rw [if_neg (fun hc => by have := (cmpNat_eq_iff s1 s2).mp hc; omega)]
    rw [(cmpNat_gt_iff _ _).mpr h, (cmpNat_gt_iff _ _).mpr (by omega)]

theorem ptCastCmp_eq_rank (a b : ParameterType) :
    a.cast_cmp b = cmpNat (ptRank a) (ptRank b) := by
  have hidx : ∀ t : ParameterBaseType, t.toIdx < 5 := by decide
  have hgd : ∀ x y : ParameterBaseType,
      (x.cmpOpt y).getD (x.enumCmp y) = cmpNat x.toIdx y.toIdx := by
    intro x y
    rfl
  unfold ParameterType.cast_cmp ptRank
  rw [lexRank_cmp _ _ _ _ (hidx a.base_type) (hidx b.base_type)]
  rw [hgd]
  rfl

theorem ptCastCmp_swap (a b : ParameterType) :
    a.cast_cmp b = (b.cast_cmp a).swap := by
  rw [ptCastCmp_eq_rank, ptCastCmp_eq_rank, cmpNat_swap]

theorem ptCastCmp_self (a : ParameterType) : a.cast_cmp a = .eq := by
  rw [ptCastCmp_eq_rank, cmpNat_self]

namespace ConstEvalFunctionInstance

/-- The lexicographic fold over rank lists. -/
def natListLex (l1 l2 : List Nat) : Ordering :=
  (l1.zip l2).foldl (fun i ab => if i = .eq then cmpNat ab.1 ab.2 else i) .eq

theorem foldl_ordering_stuck {α : Type} (f : α → Ordering) (l : List α)
    (o : Ordering) (h : o ≠ .eq) :
    l.foldl (fun i ab => if i = .eq then f ab else i) o = o := by
  induction l with
  | nil => rfl
  | cons a l ih => simp [List.foldl, h, ih]

theorem natListLex_nil_left (l : List Nat) : natListLex [] l = .eq := by
  simp [natListLex]

theorem natListLex_nil_right (l : List Nat) : natListLex l [] = .eq := by
  simp [natListLex]

/-- One step of the lexicographic fold. -/
theorem lexFold_cons {α : Type} (f : α × α → Ordering) (a b : α) (l1 l2 : List α) :
    (((a :: l1).zip (b :: l2)).foldl (fun i ab => if i = .eq then f ab else i) .eq)
      = if f (a, b) = .eq then
          ((l1.zip l2).foldl (fun i ab => if i = .eq then f ab else i) .eq)
        else f (a, b) := by
  rw [List.zip_cons_cons]
  show List.foldl _ (if (Ordering.eq = Ordering.eq) then f (a, b) else Ordering.eq) _ = _
  rw [if_pos rfl]
  by_cases h : f (a, b) = .eq
  · rw [if_pos h, h]
  · rw [if_neg h, foldl_ordering_stuck f _ _ h]

theorem natListLex_cons (a b : Nat) (l1 l2 : List Nat) :
    natListLex (a :: l1) (b :: l2) =
      if cmpNat a b = .eq then natListLex l1 l2 else cmpNat a b :=
  lexFold_cons (fun ab : Nat × Nat => cmpNat ab.1 ab.2) a b l1 l2

theorem listCastCmp_cons (a b : ParameterType) (l1 l2 : List ParameterType) :
    listCastCmp (a :: l1) (b :: l2) =
      if a.cast_cmp b = .eq then listCastCmp l1 l2 else a.cast_cmp b :=
  lexFold_cons (fun ab : ParameterType × ParameterType => ab.1.cast_cmp ab.2) a b l1 l2

theorem listCastCmp_eq_rank (l1 l2 : List ParameterType) :
    listCastCmp l1 l2 = natListLex (l1.map ptRank) (l2.map ptRank) := by
  induction l1 generalizing l2 with
  | nil => cases l2 <;> rfl
  | cons a l1 ih =>
      cases l2 with
      | nil => rfl
      | cons b l2 =>
          rw [listCastCmp_cons]
          simp only [List.map_cons, natListLex_cons, ptCastCmp_eq_rank, ih]

theorem natListLex_swap (l1 l2 : List Nat) :
    natListLex l1 l2 = (natListLex l2 l1).swap := by
  induction l1 generalizing l2 with
  | nil => cases l2 <;> rfl
  | cons a l1 ih =>
      cases l2 with
      | nil => rfl
      | cons b l2 =>
          rw [natListLex_cons, natListLex_cons, cmpNat_swap a b, ih]
          rcases h : cmpNat b a with _ | _ | _ <;> simp [Ordering.swap]

theorem natListLex_self (l : List Nat) : natListLex l l = .eq := by
  induction l with
  | nil => rfl
  | cons a l ih => rw [natListLex_cons, cmpNat_self]; simpa

theorem natListLex_trans {l1 l2 l3 : List Nat} (h12 : l1.length = l2.length)
    (h23 : l2.length = l3.length) (a12 : natListLex l1 l2 ≠ .gt)
    (a23 : natListLex l2 l3 ≠ .gt) : natListLex l1 l3 ≠ .gt := by
  induction l1 generalizing l2 l3 with
  | nil =>
      cases l3 with
      | nil => simp [natListLex_nil_left]
      | cons c t3 => simp at h12 h23; omega
  | cons a t1 ih =>
      cases l2 with
      | nil => simp at h12
      | cons b t2 =>
          cases l3 with
          | nil => simp at h23
          | cons c t3 =>
              simp only [List.length_cons] at h12 h23
              rw [natListLex_cons] at a12 a23 ⊢
              by_cases hab : a = b
              · subst hab
                rw [if_pos (by rw [cmpNat_eq_iff])] at a12
                by_cases hbc : a = c
                · subst hbc
                  rw [if_pos (by rw [cmpNat_eq_iff])] at a23 ⊢
                  exact ih (by omega) (by omega) a12 a23
                · rw [if_neg (by rw [cmpNat_eq_iff]; exact hbc)] at a23 ⊢
                  exact a23
              · rw [if_neg (by rw [cmpNat_eq_iff]; exact hab)] at a12
                have hlt : a < b := by
                  have := (cmpNat_ne_gt_iff a b).mp a12
                  omega
                have hbc : b ≤ c := by
                  by_cases h : b = c
                  · omega
                  · rw [if_neg (by rw [cmpNat_eq_iff]; exact h)] at a23
                    have := (cmpNat_ne_gt_iff b c).mp a23
                    omega
                have hac : a < c := by omega
                rw [if_neg (by rw [cmpNat_eq_iff]; omega)]
                exact (cmpNat_ne_gt_iff _ _).mpr (by omega)

theorem cast_cmp_swap (i j : ConstEvalFunctionInstance) :
    i.cast_cmp j = (j.cast_cmp i).swap := by
  rcases i with ⟨pi, fi⟩
  rcases j with ⟨pj, fj⟩
  rcases pi with _ | p1 <;> rcases pj with _ | p2
  · rfl
  · rfl
  · rfl
  · simp only [cast_cmp]
    rw [cmpNat_swap p1.length p2.length, listCastCmp_eq_rank, listCastCmp_eq_rank,
      natListLex_swap]
    rcases h1 : cmpNat p2.length p1.length with _ | _ | _ <;>
      rcases h2 : natListLex (List.map ptRank p2) (List.map ptRank p1) with _ | _ | _ <;>
        simp [Ordering.swap]

theorem cast_cmp_self (i : ConstEvalFunctionInstance) : i.cast_cmp i = .eq := by
  rcases i with ⟨pi, fi⟩
  rcases pi with _ | p
  · rfl
  · simp [cast_cmp, cmpNat_self, listCastCmp_eq_rank, natListLex_self]

/-- Transitivity of the non-strict dispatch order. -/
theorem cast_cmp_le_trans {i j k : ConstEvalFunctionInstance}
    (hij : i.cast_cmp j ≠ .gt) (hjk : j.cast_cmp k ≠ .gt) :
    i.cast_cmp k ≠ .gt := by
  rcases i with ⟨pi, fi⟩
  rcases j with ⟨pj, fj⟩
  rcases k with ⟨pk, fk⟩
  rcases pi with _ | p1 <;> rcases pj with _ | p2 <;> rcases pk with _ | p3
  · exact fun hc => Ordering.noConfusion hc
  · exact absurd rfl hjk
  · exact absurd rfl hij
  · exact absurd rfl hij
  · exact fun hc => Ordering.noConfusion hc
  · exact absurd rfl hjk
  · exact fun hc => Ordering.noConfusion hc
  · simp only [cast_cmp] at hij hjk ⊢
    rw [listCastCmp_eq_rank] at hij hjk ⊢
    by_cases e12 : p1.length = p2.length
    · rw [if_pos ((cmpNat_eq_iff _ _).mpr e12)] at hij
      by_cases e23 : p2.length = p3.length
      · rw [if_pos ((cmpNat_eq_iff _ _).mpr e23)] at hjk
        rw [if_pos ((cmpNat_eq_iff _ _).mpr (e12.trans e23))]
        exact natListLex_trans (by simp [e12]) (by simp [e23]) hij hjk
      · rw [if_neg (fun hc => e23 ((cmpNat_eq_iff _ _).mp hc))] at hjk
        have h2 : p2.length ≤ p3.length := (cmpNat_ne_gt_iff _ _).mp hjk
        rw [if_neg (fun hc => by have := (cmpNat_eq_iff _ _).mp hc; omega)]
        exact (cmpNat_ne_gt_iff _ _).mpr (by omega)
    · rw [if_neg (fun hc => e12 ((cmpNat_eq_iff _ _).mp hc))] at hij
      have h1 : p1.length ≤ p2.length := (cmpNat_ne_gt_iff _ _).mp hij
      have h1s : p1.length < p2.length := by omega
      have h2 : p2.length ≤ p3.length := by
        by_cases e23 : p2.length = p3.length
        · omega
        · rw [if_neg (fun hc => e23 ((cmpNat_eq_iff _ _).mp hc))] at hjk
          exact (cmpNat_ne_gt_iff _ _).mp hjk
      rw [if_neg (fun hc => by have := (cmpNat_eq_iff _ _).mp hc; omega)]
      exact (cmpNat_ne_gt_iff _ _).mpr (by omega)

/-- Totality of the non-strict dispatch order. -/
theorem cast_cmp_le_total (i j : ConstEvalFunctionInstance) :
    i.cast_cmp j ≠ .gt ∨ j.cast_cmp i ≠ .gt := by
  rw [cast_cmp_swap i j]
  rcases h : j.cast_cmp i with _ | _ | _ <;> simp [Ordering.swap]

end ConstEvalFunctionInstance

/-! Correctness of the stable insertion sort used by
`ConstEvalFunctionBuilder.build`. -/

theorem mem_insertByCastCmp {x y : ConstEvalFunctionInstance}
    {l : List ConstEvalFunctionInstance} :
    y ∈ insertByCastCmp x l ↔ y = x ∨ y ∈ l := by
  induction l with
  | nil => simp [insertByCastCmp]
  | cons a l ih =>
      unfold insertByCastCmp
      by_cases h : x.cast_cmp a = .lt
      · rw [if_pos h]
        simp [List.mem_cons]
      · rw [if_neg h]
        simp only [List.mem_cons, ih]
        tauto

theorem mem_foldl_insert {l : List ConstEvalFunctionInstance}
    {acc : List ConstEvalFunctionInstance} {y : ConstEvalFunctionInstance} :
    y ∈ l.foldl (fun acc x => insertByCastCmp x acc) acc ↔ y ∈ acc ∨ y ∈ l := by
  induction l generalizing acc with
  | nil => simp
  | cons a l ih =>
      simp only [List.foldl, ih, mem_insertByCastCmp, List.mem_cons]
      tauto

theorem mem_sortByCastCmp {y : ConstEvalFunctionInstance}
    {l : List ConstEvalFunctionInstance} : y ∈ sortByCastCmp l ↔ y ∈ l := by
  unfold sortByCastCmp
  rw [mem_foldl_insert]
  simp

/-- The non-strict dispatch order on instances. -/
def instLe (i j : ConstEvalFunctionInstance) : Prop := i.cast_cmp j ≠ .gt

theorem pairwise_insertByCastCmp {x : ConstEvalFunctionInstance}
    {l : List ConstEvalFunctionInstance} (h : l.Pairwise instLe) :
    (insertByCastCmp x l).Pairwise instLe := by
  induction l with
  | nil => simp [insertByCastCmp, List.Pairwise]
  | cons a l ih =>
      rcases List.pairwise_cons.mp h with ⟨ha, hl⟩
      unfold insertByCastCmp
      by_cases hcmp : x.cast_cmp a = .lt
      · rw [if_pos hcmp]
        refine List.pairwise_cons.mpr ⟨?_, h⟩
        intro z hz
        rcases List.mem_cons.mp hz with rfl | hz
        · intro hc
          rw [hcmp] at hc
          exact Ordering.noConfusion hc
        · exact ConstEvalFunctionInstance.cast_cmp_le_trans
            (by intro hc; rw [hcmp] at hc; exact Ordering.noConfusion hc) (ha z hz)
      · rw [if_neg hcmp]
        refine List.pairwise_cons.mpr ⟨?_, ih hl⟩
        intro z hz
        rcases mem_insertByCastCmp.mp hz with rfl | hz
        · show a.cast_cmp z ≠ .gt
          rw [ConstEvalFunctionInstance.cast_cmp_swap]
          rcases hc : z.cast_cmp a with _ | _ | _
          · exact absurd hc hcmp
          · intro hs
            exact Ordering.noConfusion hs
          · intro hs
            exact Ordering.noConfusion hs
        · exact ha z hz

theorem pairwise_sortByCastCmp (l : List ConstEvalFunctionInstance) :
    (sortByCastCmp l).Pairwise instLe := by
  unfold sortByCastCmp
  have main : ∀ (l acc : List ConstEvalFunctionInstance), acc.Pairwise instLe →
      (l.foldl (fun acc x => insertByCastCmp x acc) acc).Pairwise instLe := by
    intro l
    induction l with
    | nil => intro acc h; exact h
    | cons a l ih =>
        intro acc h
        exact ih _ (pairwise_insertByCastCmp h)
  exact main l [] (by simp)

/-! The dispatch scan characterised as a first-match walk. -/

/-- The claim-side description of the dispatcher (spec §4.E steps 2–4):
walk the instances in list order and return the value of the first
instance that is compatible with the argument descriptors and whose
evaluator returns a present value; `none` when no instance yields one. -/
def dispatchFirstMatch (insts : List ConstEvalFunctionInstance)
    (params : List ConstBaseVal) : Option ConstBaseVal :=
  insts.findSome? fun inst =>
    if inst.compatible_with (argDescrs params) then (inst.function params).toOption
    else none

theorem evalScan_eq_findSome (params : List ConstBaseVal)
    (l : List ConstEvalFunctionInstance)
    (h : ∀ inst ∈ l, inst.function params ≠ .panicked) :
    evalScan (argDescrs params) params l = PRes.ofOption (dispatchFirstMatch l params) := by
  induction l with
  | nil => rfl
  | cons i rest ih =>
      unfold evalScan dispatchFirstMatch
      by_cases hc : (i.compatible_with (argDescrs params) : Bool)
      · rw [if_pos hc]
        cases hf : i.function params with
        | panicked => exact absurd hf (h i (List.mem_cons_self i rest))
        | absent =>
            rw [List.findSome?_cons]
            rw [if_pos hc, hf]
            exact ih fun inst hm => h inst (List.mem_cons_of_mem i hm)
        | present r =>
            rw [List.findSome?_cons]
            rw [if_pos hc, hf]
            rfl
      · rw [if_neg hc]
        rw [List.findSome?_cons]
        rw [if_neg hc]
        exact ih fun inst hm => h inst (List.mem_cons_of_mem i hm)

/-- C1: for every function assembled by the builder and every parameter
list on which no registered evaluator panics, `eval` walks the overload
instances in the sorted dispatch order and returns the result of the
first instance that is both compatible with the arguments'
(shape, base-type) descriptors and whose evaluator returns a present
value; if no instance yields a present value it returns absent.  The
walked list is the `build`-sorted one: it is pairwise ordered by
`cast_cmp`. -/
theorem constEvalFunction_eval_first_match (b : ConstEvalFunctionBuilder)
    (params : List ConstBaseVal)
    (hnp : ∀ inst ∈ b.overloads, inst.function params ≠ .panicked) :
    b.build.eval params = PRes.ofOption (dispatchFirstMatch b.build.overloads params)
      ∧ b.build.overloads.Pairwise instLe := by
  constructor
  · show evalScan (argDescrs params) params (sortByCastCmp b.overloads)
      = PRes.ofOption (dispatchFirstMatch (sortByCastCmp b.overloads) params)
    exact evalScan_eq_findSome params (sortByCastCmp b.overloads)
      fun inst hm => hnp inst (mem_sortByCastCmp.mp hm)
  · exact pairwise_sortByCastCmp b.overloads

/-- Concrete builder for the C1 witness: a typed scalar-int overload and a
generic fallback. -/
def c1Builder : ConstEvalFunctionBuilder :=
  (ConstEvalFunctionBuilder.new.add_overload_1 cpInt cpInt.into_const_base_val
    fun a => .present (i32_add a 1)).add_generic fun _ => .absent

def c1Params : List ConstBaseVal := [.Int (.Scalar 5)]

/-- Witness for C1 at a concrete function and parameter list. -/
theorem constEvalFunction_eval_first_match_witness :
    (∀ inst ∈ c1Builder.overloads, inst.function c1Params ≠ .panicked)
      ∧ (c1Builder.build.eval c1Params
          = PRes.ofOption (dispatchFirstMatch c1Builder.build.overloads c1Params)
        ∧ c1Builder.build.overloads.Pairwise instLe) :=
  ⟨by decide, constEvalFunction_eval_first_match c1Builder c1Params (by decide)⟩

/-- C5: the prototype/parameter-type comparison is a consistent total
order: swapping the arguments of `cast_cmp` reverses the result and
comparing anything with itself yields `Equal`, both at the level of
parameter types and at the level of overload instances (in particular of
typed overload prototypes). -/
theorem cast_cmp_total_order :
    (∀ a b : ParameterType, a.cast_cmp b = (b.cast_cmp a).swap ∧ a.cast_cmp a = .eq)
      ∧ (∀ i j : ConstEvalFunctionInstance,
          i.cast_cmp j = (j.cast_cmp i).swap ∧ i.cast_cmp i = .eq) :=
  ⟨fun a b => ⟨ptCastCmp_swap a b, ptCastCmp_self a⟩,
   fun i j => ⟨ConstEvalFunctionInstance.cast_cmp_swap i j,
     ConstEvalFunctionInstance.cast_cmp_self i⟩⟩

/-- C2: the code's `GenericM` arm of `ParameterShape::matches` tests
`is_vector`: it rejects the matrix shape `Mat2` and accepts the vector
shape `Vec2`, so on every value shape it matches exactly the vector
shapes — contradicting the claim that `GenericM` matches exactly the
nine matrix shapes.  (The surrounding code treats `GenericM` as the
matrix family: every `ConstMVal` carrier registers it, so a vector that
passes this check makes the typed evaluator's implicit cast panic.) -/
theorem genericM_matches_vectors_not_matrices :
    ParameterShape.«matches» .GenericM .Mat2 = false
      ∧ ParameterShape.«matches» .GenericM .Vec2 = true
      ∧ ∀ s : BaseTypeShape, ParameterShape.«matches» .GenericM s = s.is_vector := by
  decide

/-- Concrete 2×2 int array for the C6 failing input: dimensions `[2, 2]`,
flat store of four scalars. -/
def c6Array : ConstArray :=
  ⟨.Int, [2, 2],
    [.Base (.Int (.Scalar 10)), .Base (.Int (.Scalar 11)),
     .Base (.Int (.Scalar 12)), .Base (.Int (.Scalar 13))]⟩

/-- C6: evaluating `ConstArray::get` at the failing input: on the 2×2
array, the index tuple `[2, 0]` has its first component equal to the
dimension, yet `get` returns an element (the one at flat index 2, which
is logically `(0, 1)`) because the bounds test uses `>` instead of `≥` —
contradicting the claim that any component `≥` its dimension yields
`None`. -/
theorem constArray_get_index_eq_dim_returns_element :
    c6Array.dims = [2, 2]
      ∧ ConstArray.get c6Array [2, 0] = some (.Base (.Int (.Scalar 12))) := by
  constructor
  · rfl
  · rfl

/-- C7: evaluating `ConstBaseVal::as_expr` at a double `Vec2` value: the
code emits a call to `dvec4`, not the shape-correct `dvec2` the claim
requires. -/
theorem double_vec2_as_expr_emits_dvec4 :
    ConstBaseVal.as_expr (.Double (.Vector (.Vec2 ⟨1, 2⟩)))
        = .FunCall "dvec4" [.DoubleConst 1, .DoubleConst 2]
      ∧ ConstBaseVal.as_expr (.Double (.Vector (.Vec2 ⟨1, 2⟩)))
        ≠ .FunCall "dvec2" [.DoubleConst 1, .DoubleConst 2] := by
  constructor
  · rfl
  · intro hc
    injection hc with h1 h2
    exact absurd h1 (by decide)

/-- C8: the constructor registered under the surface name `dmat2`, called
with the single double scalar `3.0`, returns a `Float` (f32) diagonal
matrix — the registration instantiates `add_mat_constructor` at `f32`, so
the requested `dmat` base type does not determine the result's base type,
contradicting the claim. -/
theorem dmat2_single_scalar_returns_float_matrix :
    (BUILTIN_CONST_FUNCTIONS "dmat2").map
        (fun f => f.eval [ConstBaseVal.Double (.Scalar 3)])
      = some (.present (.Float (.Matrix (.Mat2 ⟨⟨3, 0⟩, ⟨0, 3⟩⟩)))) := by
  rfl

/-! The propagator claims. -/

def emptyConstLookup : ConstLookupFn := fun _ => none

def emptyFnLookup : FnLookupFn := fun _ => none

/-- C10: propagating the fully constant integer division `1 / 0` panics
(the Rust division inside the first compatible `OP_BINARY_DIV` overload),
for any constant lookup and any function lookup — instead of producing a
constant, a residual expression, or an error. -/
theorem div_by_zero_propagation_panics (cl : ConstLookupFn) (fl : FnLookupFn) :
    const_propagate_expr (.Binary .Div (.IntConst 1) (.IntConst 0)) cl fl
      = .panicked := by
  simp only [const_propagate_expr]
  rfl

/-- The C9 input expression `vec3(1.0, 2.0) * 0.5`. -/
def c9Expr : Expr :=
  .Binary .Mult (.FunCall "vec3" [.FloatConst 1, .FloatConst 2]) (.FloatConst (1 / 2))

/-- Discriminator for the error family named by claim C9. -/
def PROut.isIllegalBinaryOperandError : PROut → Bool
  | .error (.IllegalBinaryOperand _ _ _) => true
  | _ => false

/-- C9 counterexample: propagating `vec3(1.0, 2.0) * 0.5` with the empty
constant lookup and the builtin function lookup does not produce an
`IllegalBinaryOperand` error of any kind. -/
theorem vec3_times_half_not_illegal_binary_operand :
    (const_propagate_expr c9Expr emptyConstLookup
        BUILTIN_CONST_FUNCTIONS).isIllegalBinaryOperandError = false := by
  simp only [c9Expr, const_propagate_expr, const_propagate_args]
  rfl

/-- C9 amended: the propagation of `vec3(1.0, 2.0) * 0.5` fails inside the
`vec3` call (two scalars cannot fill three components, so the constructor
overload reports absent) and the resulting `NoMatchingFunctionOverload`
error bubbles out of the whole expression. -/
theorem vec3_times_half_no_matching_overload :
    const_propagate_expr c9Expr emptyConstLookup BUILTIN_CONST_FUNCTIONS
      = .error .NoMatchingFunctionOverload := by
  simp only [c9Expr, const_propagate_expr, const_propagate_args]
  rfl

/-- Constant lookup for the C4 failing input: `arr` is bound to a constant
one-dimensional int array, `x` is free. -/
def c4Lookup : ConstLookupFn := fun s =>
  if s = "arr" then
    some (.Array ⟨.Int, [2], [.Base (.Int (.Scalar 1)), .Base (.Int (.Scalar 2))]⟩)
  else none

/-- C4: when a sub-expression propagates to a constant array while its
sibling stays non-constant, rebuilding the enclosing binary expression
calls `ConstVal::as_expr` — which is `todo!()` for arrays — so the
propagator panics instead of returning the unfolded expression the claim
describes. -/
theorem const_array_in_expr_context_panics :
    const_propagate_expr (.Binary .Add (.Variable "arr") (.Variable "x"))
        c4Lookup emptyFnLookup = .panicked := by
  simp only [const_propagate_expr]
  rfl

/-- C3: propagation of a ternary `a ? b : c`: (1) if the condition
propagates to a constant scalar bool `v`, the result is exactly the
propagation of the branch selected by `v` — the statement holds for every
other branch, so the unselected branch never influences the result; (2)
if the condition propagates to any other constant, the result is the
`TernaryExpectedScalarBool` error; (3) if the condition stays an
expression, both branches are propagated and the ternary is rebuilt. -/
theorem ternary_propagation (a b c : Expr) (cl : ConstLookupFn) (fl : FnLookupFn) :
    (∀ v : Bool,
      const_propagate_expr a cl fl = .ok (.Const (.Base (.Bool (.Scalar v)))) →
      const_propagate_expr (.Ternary a b c) cl fl
        = const_propagate_expr (if v then b else c) cl fl)
    ∧ (∀ w : ConstVal, const_propagate_expr a cl fl = .ok (.Const w) →
        (∀ v : Bool, w ≠ .Base (.Bool (.Scalar v))) →
        const_propagate_expr (.Ternary a b c) cl fl
          = .error .TernaryExpectedScalarBool)
    ∧ (∀ e : Expr, const_propagate_expr a cl fl = .ok (.Expr e) →
        const_propagate_expr (.Ternary a b c) cl fl
          = rebuildTernary e (const_propagate_expr b cl fl)
              (const_propagate_expr c cl fl)) := by
  refine ⟨?_, ?_, ?_⟩
  · intro v hv
    rw [const_propagate_expr]
    rw [hv]
    cases v <;> rfl
  · intro w hw hnb
    rw [const_propagate_expr]
    rw [hw]
    rcases w with bv | av | sv
    · rcases bv with sb | si | su | sf | sd
      · rcases sb with v | vec
        · exact absurd rfl (hnb v)
        · rfl
      · rfl
      · rfl
      · rfl
      · rfl
    · rfl
    · rfl
  · intro e he
    rw [const_propagate_expr]
    rw [he]

/-- Witness for C3 at a concrete ternary with a constant-true condition. -/
theorem ternary_propagation_witness :
    const_propagate_expr (.BoolConst true) emptyConstLookup emptyFnLookup
        = .ok (.Const (.Base (.Bool (.Scalar true))))
      ∧ const_propagate_expr
          (.Ternary (.BoolConst true) (.IntConst 1) (.Variable "x"))
          emptyConstLookup emptyFnLookup
        = const_propagate_expr
            (if true then Expr.IntConst 1 else Expr.Variable "x")
            emptyConstLookup emptyFnLookup := by
  have h1 : const_propagate_expr (.BoolConst true) emptyConstLookup emptyFnLookup
      = .ok (.Const (.Base (.Bool (.Scalar true)))) := by
    simp only [const_propagate_expr]
  exact ⟨h1,
    (ternary_propagation (.BoolConst true) (.IntConst 1) (.Variable "x")
      emptyConstLookup emptyFnLookup).1 true h1⟩

end ConstEval
